import Mathlib

/-!
Verification of the AstroMediaServer setup wizard (src/scripts/astro-setup.py).

The development shallowly embeds the compose-generation core of the script:
`UserConfig` mirrors the Python `UserConfig` dataclass, `ServiceSpec` mirrors
the per-service dictionaries placed into `ComposeGenerator.services`, and the
`add*` functions below are direct translations of the `ComposeGenerator._add_*`
methods, composed in the same order by `generate`.

A Python dict of services is modelled as an insertion-ordered association list
(`Graph`); assignment to an existing key replaces the value in place
(`insertService`), matching dict semantics.  A dict key that is absent is
modelled by the field's default (`[]` for lists, `none` for options); in
particular `pop("ports", None)` is modelled by setting `ports := []`.
The `KeyError` raised by `self.IMAGES[server]` for an unknown media server is
modelled by `generate` returning `none`.
-/

namespace Astro

/-- One service entry of the generated compose file: the union of dict keys the
script ever writes for a service.  Absent key = default value. -/
structure ServiceSpec where
  image : String := ""
  container_name : String := ""
  restart : String := ""
  environment : List (String × String) := []
  command : List String := []
  volumes : List String := []
  ports : List String := []
  cap_add : List String := []
  devices : List String := []
  network_mode : Option String := none
  depends_on : List String := []
  runtime : Option String := none
deriving Repr, DecidableEq

/-- Mirrors the Python `UserConfig` dataclass field for field. -/
structure UserConfig where
  media_server : String := "jellyfin"
  downloader : String := "qbittorrent"
  gateway : String := "traefik"
  dashboard : String := "homepage"
  timezone : String := "America/New_York"
  puid : String := "1000"
  pgid : String := "1000"
  enable_usenet : Bool := false
  enable_torrents : Bool := true
  enable_vpn : Bool := false
  vpn_provider : String := ""
  vpn_username : String := ""
  vpn_password : String := ""
  extra_services : List String := []
  enable_transcoding : Bool := false
  transcoding_type : String := ""
deriving Repr, DecidableEq

/-- The services mapping being built: insertion-ordered association list,
as a Python dict. -/
abbrev Graph := List (String × ServiceSpec)

/-- Dict assignment `d[k] = v`: replace in place if the key is present,
else append. -/
def insertService : Graph → String → ServiceSpec → Graph
  | [], k, v => [(k, v)]
  | (k₀, v₀) :: rest, k, v =>
    if k₀ = k then (k, v) :: rest else (k₀, v₀) :: insertService rest k v

/-- Dict lookup `d.get(k)` / `k in d`. -/
def lookupService : Graph → String → Option ServiceSpec
  | [], _ => none
  | (k₀, v₀) :: rest, k => if k₀ = k then some v₀ else lookupService rest k

/-- The keys of the services dict, in insertion order. -/
def keysOf (g : Graph) : List String := g.map (fun e => e.1)

/-- Assignment `d[k] = v` on a string-valued dict (used for `environment`). -/
def envInsert : List (String × String) → String → String → List (String × String)
  | [], k, v => [(k, v)]
  | (k₀, v₀) :: rest, k, v =>
    if k₀ = k then (k, v) :: rest else (k₀, v₀) :: envInsert rest k v

-- Configuration paths (module constants of the script).
def ASTRO_DIR : String := "/opt/astro"
def CONFIG_DIR : String := "/opt/astro/config"
def MEDIA_DIR : String := "/opt/astro/media"

/-- `ComposeGenerator.IMAGES`: logical name to image reference. -/
def IMAGES : List (String × String) :=
  [("plex", "lscr.io/linuxserver/plex:latest"),
   ("jellyfin", "lscr.io/linuxserver/jellyfin:latest"),
   ("emby", "lscr.io/linuxserver/emby:latest"),
   ("radarr", "lscr.io/linuxserver/radarr:latest"),
   ("sonarr", "lscr.io/linuxserver/sonarr:latest"),
   ("lidarr", "lscr.io/linuxserver/lidarr:latest"),
   ("readarr", "lscr.io/linuxserver/readarr:latest"),
   ("prowlarr", "lscr.io/linuxserver/prowlarr:latest"),
   ("bazarr", "lscr.io/linuxserver/bazarr:latest"),
   ("qbittorrent", "lscr.io/linuxserver/qbittorrent:latest"),
   ("sabnzbd", "lscr.io/linuxserver/sabnzbd:latest"),
   ("nzbget", "lscr.io/linuxserver/nzbget:latest"),
   ("traefik", "traefik:latest"),
   ("nginx-proxy-manager", "jc21/nginx-proxy-manager:latest"),
   ("homepage", "ghcr.io/gethomepage/homepage:latest"),
   ("heimdall", "lscr.io/linuxserver/heimdall:latest"),
   ("watchtower", "containrrr/watchtower:latest"),
   ("portainer", "portainer/portainer-ce:latest"),
   ("overseerr", "lscr.io/linuxserver/overseerr:latest"),
   ("tautulli", "lscr.io/linuxserver/tautulli:latest"),
   ("gluetun", "qmcgaw/gluetun:latest")]

def lookupImage : List (String × String) → String → Option String
  | [], _ => none
  | (k₀, v₀) :: rest, k => if k₀ = k then some v₀ else lookupImage rest k

/-- `self.IMAGES[name]` for the literal keys the script uses (always present). -/
def imageOf (name : String) : String := (lookupImage IMAGES name).getD ""

/-- `ComposeGenerator._base_env`. -/
def baseEnv (c : UserConfig) : List (String × String) :=
  [("PUID", c.puid), ("PGID", c.pgid), ("TZ", c.timezone)]

/-- `ComposeGenerator._add_media_server`, given the already-resolved image
(the `IMAGES[server]` lookup happens first and its failure aborts `generate`). -/
def addMediaServer (c : UserConfig) (img : String) (g : Graph) : Graph :=
  let server := c.media_server
  let base : ServiceSpec :=
    { image := img
      container_name := server
      restart := "unless-stopped"
      environment := baseEnv c
      volumes := [CONFIG_DIR ++ "/" ++ server ++ ":/config",
                  MEDIA_DIR ++ "/movies:/movies",
                  MEDIA_DIR ++ "/tv:/tv",
                  MEDIA_DIR ++ "/music:/music"] }
  let base :=
    if server = "plex" then
      { base with network_mode := some "host",
                  environment := envInsert base.environment "VERSION" "docker" }
    else if server = "jellyfin" then { base with ports := ["8096:8096"] }
    else if server = "emby" then { base with ports := ["8096:8096"] }
    else base
  insertService g server base

/-- Volumes of one arr-suite service (`_add_arr_suite` loop body). -/
def arrVolumes (c : UserConfig) (name : String) : List String :=
  let volumes := [CONFIG_DIR ++ "/" ++ name ++ ":/config"]
  if name ∈ ["radarr", "sonarr", "lidarr", "readarr"] then
    volumes ++
      [MEDIA_DIR ++ "/movies:/movies",
       MEDIA_DIR ++ "/tv:/tv",
       MEDIA_DIR ++ "/music:/music",
       MEDIA_DIR ++ "/books:/books"] ++
      (if c.enable_torrents then [ASTRO_DIR ++ "/torrents:/downloads/torrents"] else []) ++
      (if c.enable_usenet then [ASTRO_DIR ++ "/usenet:/downloads/usenet"] else [])
  else volumes

/-- One arr-suite service entry. -/
def arrService (c : UserConfig) (name port : String) : ServiceSpec :=
  { image := imageOf name
    container_name := name
    restart := "unless-stopped"
    environment := baseEnv c
    ports := [port]
    volumes := arrVolumes c name }

/-- `ComposeGenerator._add_arr_suite` (the `arr_configs` dict loop, unrolled in
its iteration order). -/
def addArrSuite (c : UserConfig) (g : Graph) : Graph :=
  let g := insertService g "radarr" (arrService c "radarr" "7878:7878")
  let g := insertService g "sonarr" (arrService c "sonarr" "8989:8989")
  let g := insertService g "lidarr" (arrService c "lidarr" "8686:8686")
  let g := insertService g "readarr" (arrService c "readarr" "8787:8787")
  insertService g "prowlarr" (arrService c "prowlarr" "9696:9696")

/-- The torrent-client entry of `_add_downloader` (always qbittorrent: the
method computes a local `downloader` variable for this branch but never
uses it). -/
def qbtSpec (c : UserConfig) : ServiceSpec :=
  { image := imageOf "qbittorrent"
    container_name := "qbittorrent"
    restart := "unless-stopped"
    environment := baseEnv c ++ [("WEBUI_PORT", "8080")]
    ports := ["8080:8080", "6881:6881", "6881:6881/udp"]
    volumes := [CONFIG_DIR ++ "/qbittorrent:/config",
                ASTRO_DIR ++ "/torrents:/downloads"] }

/-- The `usenet_client` local of `_add_downloader`: the downloader field if it
is in the usenet family, else sabnzbd. -/
def ucName (c : UserConfig) : String :=
  if c.downloader ∈ ["sabnzbd", "nzbget"] then c.downloader else "sabnzbd"

/-- The single port mapping of the resolved usenet client
(`f"{port}:{port}"` with port 8080 for sabnzbd, 6789 for nzbget). -/
def ucPorts (c : UserConfig) : List String :=
  let port := if ucName c = "sabnzbd" then "8080" else "6789"
  [port ++ ":" ++ port]

/-- The usenet-client entry of `_add_downloader`. -/
def usenetSpec (c : UserConfig) : ServiceSpec :=
  { image := imageOf (ucName c)
    container_name := ucName c
    restart := "unless-stopped"
    environment := baseEnv c
    ports := ucPorts c
    volumes := [CONFIG_DIR ++ "/" ++ ucName c ++ ":/config",
                ASTRO_DIR ++ "/usenet:/downloads"] }

/-- `ComposeGenerator._add_downloader`. -/
def addDownloader (c : UserConfig) (g : Graph) : Graph :=
  let g := if c.enable_torrents then insertService g "qbittorrent" (qbtSpec c) else g
  if c.enable_usenet then insertService g (ucName c) (usenetSpec c) else g

/-- `ComposeGenerator._add_gateway`.  An unrecognized gateway value falls
through both branches and adds nothing. -/
def addGateway (c : UserConfig) (g : Graph) : Graph :=
  if c.gateway = "traefik" then
    insertService g "traefik"
      { image := imageOf "traefik"
        container_name := "traefik"
        restart := "unless-stopped"
        command := ["--api.dashboard=true",
                    "--api.insecure=true",
                    "--providers.docker=true",
                    "--providers.docker.exposedbydefault=false",
                    "--entrypoints.web.address=:80"]
        ports := ["80:80", "8081:8080"]
        volumes := ["/var/run/docker.sock:/var/run/docker.sock:ro",
                    CONFIG_DIR ++ "/traefik:/etc/traefik"] }
  else if c.gateway = "nginx-proxy-manager" then
    insertService g "nginx-proxy-manager"
      { image := imageOf "nginx-proxy-manager"
        container_name := "nginx-proxy-manager"
        restart := "unless-stopped"
        ports := ["80:80", "443:443", "81:81"]
        volumes := [CONFIG_DIR ++ "/npm/data:/data",
                    CONFIG_DIR ++ "/npm/letsencrypt:/etc/letsencrypt"] }
  else g

/-- `ComposeGenerator._add_dashboard`.  An unrecognized dashboard value falls
through both branches and adds nothing. -/
def addDashboard (c : UserConfig) (g : Graph) : Graph :=
  if c.dashboard = "homepage" then
    insertService g "homepage"
      { image := imageOf "homepage"
        container_name := "homepage"
        restart := "unless-stopped"
        ports := ["3000:3000"]
        volumes := [CONFIG_DIR ++ "/homepage:/app/config",
                    "/var/run/docker.sock:/var/run/docker.sock:ro"]
        environment := baseEnv c }
  else if c.dashboard = "heimdall" then
    insertService g "heimdall"
      { image := imageOf "heimdall"
        container_name := "heimdall"
        restart := "unless-stopped"
        ports := ["3000:80"]
        volumes := [CONFIG_DIR ++ "/heimdall:/config"]
        environment := baseEnv c }
  else g

/-- `ComposeGenerator._add_watchtower`. -/
def addWatchtower (g : Graph) : Graph :=
  insertService g "watchtower"
    { image := imageOf "watchtower"
      container_name := "watchtower"
      restart := "unless-stopped"
      volumes := ["/var/run/docker.sock:/var/run/docker.sock"]
      environment := [("WATCHTOWER_CLEANUP", "true"),
                      ("WATCHTOWER_SCHEDULE", "0 0 4 * * *")] }

/-- `ComposeGenerator._add_extra_services`. -/
def addExtras (c : UserConfig) (g : Graph) : Graph :=
  let g :=
    if "bazarr" ∈ c.extra_services then
      insertService g "bazarr"
        { image := imageOf "bazarr"
          container_name := "bazarr"
          restart := "unless-stopped"
          environment := baseEnv c
          ports := ["6767:6767"]
          volumes := [CONFIG_DIR ++ "/bazarr:/config",
                      MEDIA_DIR ++ "/movies:/movies",
                      MEDIA_DIR ++ "/tv:/tv"] }
    else g
  let g :=
    if "overseerr" ∈ c.extra_services then
      insertService g "overseerr"
        { image := imageOf "overseerr"
          container_name := "overseerr"
          restart := "unless-stopped"
          environment := baseEnv c
          ports := ["5055:5055"]
          volumes := [CONFIG_DIR ++ "/overseerr:/config"] }
    else g
  let g :=
    if "tautulli" ∈ c.extra_services then
      insertService g "tautulli"
        { image := imageOf "tautulli"
          container_name := "tautulli"
          restart := "unless-stopped"
          environment := baseEnv c
          ports := ["8181:8181"]
          volumes := [CONFIG_DIR ++ "/tautulli:/config"] }
    else g
  if "portainer" ∈ c.extra_services then
    insertService g "portainer"
      { image := imageOf "portainer"
        container_name := "portainer"
        restart := "unless-stopped"
        ports := ["9000:9000"]
        volumes := ["/var/run/docker.sock:/var/run/docker.sock",
                    CONFIG_DIR ++ "/portainer:/data"] }
  else g

/-- The gluetun service created by `_add_vpn`. -/
def gluetunSpec (c : UserConfig) : ServiceSpec :=
  { image := imageOf "gluetun"
    container_name := "gluetun"
    restart := "unless-stopped"
    cap_add := ["NET_ADMIN"]
    devices := ["/dev/net/tun:/dev/net/tun"]
    environment := [("VPN_SERVICE_PROVIDER", c.vpn_provider),
                    ("VPN_TYPE", "openvpn"),
                    ("OPENVPN_USER", c.vpn_username),
                    ("OPENVPN_PASSWORD", c.vpn_password),
                    ("TZ", c.timezone)]
    ports := ["8080:8080", "6881:6881", "6881:6881/udp"]
    volumes := [CONFIG_DIR ++ "/gluetun:/gluetun"] }

/-- `ComposeGenerator._add_vpn`: create gluetun, then (if the qbittorrent
service exists) pop its `ports`, set `network_mode` and `depends_on`. -/
def addVpn (c : UserConfig) (g : Graph) : Graph :=
  if !c.enable_vpn then g
  else
    let g := insertService g "gluetun" (gluetunSpec c)
    match lookupService g "qbittorrent" with
    | none => g
    | some qb =>
      insertService g "qbittorrent"
        { qb with ports := [],
                  network_mode := some "service:gluetun",
                  depends_on := ["gluetun"] }

/-- `ComposeGenerator._configure_transcoding`. -/
def configureTranscoding (c : UserConfig) (g : Graph) : Graph :=
  if !c.enable_transcoding then g
  else
    match lookupService g c.media_server with
    | none => g
    | some s =>
      if c.transcoding_type = "nvidia" then
        let s₁ : ServiceSpec :=
          { s with runtime := some "nvidia",
                   environment := envInsert s.environment "NVIDIA_VISIBLE_DEVICES" "all" }
        let s₂ :=
          if c.media_server = "jellyfin" then
            { s₁ with environment := envInsert s₁.environment "NVIDIA_DRIVER_CAPABILITIES" "all" }
          else s₁
        insertService g c.media_server s₂
      else if c.transcoding_type = "intel" then
        insertService g c.media_server { s with devices := s.devices ++ ["/dev/dri:/dev/dri"] }
      else g

/-- `ComposeGenerator.generate`: the full pipeline, in source order.  Returns
the `services` mapping of the compose document (the surrounding `version` and
`networks` keys are constants).  `none` models the `KeyError` raised by
`_add_media_server` on an unknown media server, before any service is added. -/
def generate (c : UserConfig) : Option Graph :=
  match lookupImage IMAGES c.media_server with
  | none => none
  | some img =>
    some (configureTranscoding c (addVpn c (addExtras c (addWatchtower
      (addDashboard c (addGateway c (addDownloader c (addArrSuite c
        (addMediaServer c img ([] : Graph))))))))))

/-- Host-port side of a `host:container[/proto]` mapping: the prefix before
the first colon. -/
def hostOf (s : String) : String := String.mk (s.data.takeWhile (fun ch => ch ≠ ':'))

/-- Protocol of a port mapping: the suffix after the slash, defaulting to tcp. -/
def protoOf (s : String) : String :=
  match s.data.dropWhile (fun ch => ch ≠ '/') with
  | [] => "tcp"
  | _ :: rest => String.mk rest

/-- The (host port, protocol) pair a port mapping claims on the host. -/
def portKey (s : String) : String × String := (hostOf s, protoOf s)

/-- All port mappings of the whole graph, in order. -/
def allPorts (g : Graph) : List String := (g.map (fun e => e.2.ports)).flatten

/-- All (host port, protocol) pairs declared across the graph. -/
def allPortKeys (g : Graph) : List (String × String) := (allPorts g).map portKey

/-! ### Valid configurations

The wizard only ever stores one of a fixed, known set of values into each
enumerated field (`select_media_server`, `select_downloader`,
`select_gateway`, `select_dashboard`, `select_extra_services`,
`detect_hardware_transcoding`); the spec calls such a model a valid
Configuration Model.  `ValidConfig` is that set, by construction; the
free-form fields (timezone, ids, VPN credentials) stay arbitrary strings. -/

inductive MediaServer | plex | jellyfin | emby
deriving DecidableEq, Repr

inductive DownloaderChoice | qbittorrent | sabnzbd | nzbget
deriving DecidableEq, Repr

inductive GatewayChoice | traefik | nginxProxyManager
deriving DecidableEq, Repr

inductive DashboardChoice | homepage | heimdall
deriving DecidableEq, Repr

inductive TranscodeType | nvidia | intel
deriving DecidableEq, Repr

def MediaServer.str : MediaServer → String
  | .plex => "plex"
  | .jellyfin => "jellyfin"
  | .emby => "emby"

def DownloaderChoice.str : DownloaderChoice → String
  | .qbittorrent => "qbittorrent"
  | .sabnzbd => "sabnzbd"
  | .nzbget => "nzbget"

def GatewayChoice.str : GatewayChoice → String
  | .traefik => "traefik"
  | .nginxProxyManager => "nginx-proxy-manager"

def DashboardChoice.str : DashboardChoice → String
  | .homepage => "homepage"
  | .heimdall => "heimdall"

/-- A Configuration Model whose enumerated fields all hold recognized values.
`transcoding = none` models `enable_transcoding = False`; the checklist of
extra services is the subset of its four fixed tags. -/
structure ValidConfig where
  media_server : MediaServer := .jellyfin
  downloader : DownloaderChoice := .qbittorrent
  gateway : GatewayChoice := .traefik
  dashboard : DashboardChoice := .homepage
  timezone : String := "America/New_York"
  puid : String := "1000"
  pgid : String := "1000"
  enable_usenet : Bool := false
  enable_torrents : Bool := true
  enable_vpn : Bool := false
  vpn_provider : String := ""
  vpn_username : String := ""
  vpn_password : String := ""
  extra_bazarr : Bool := false
  extra_overseerr : Bool := false
  extra_tautulli : Bool := false
  extra_portainer : Bool := false
  transcoding : Option TranscodeType := none

/-- The `UserConfig` record a valid wizard run hands to `ComposeGenerator`. -/
def ValidConfig.toUserConfig (v : ValidConfig) : UserConfig :=
  { media_server := v.media_server.str
    downloader := v.downloader.str
    gateway := v.gateway.str
    dashboard := v.dashboard.str
    timezone := v.timezone
    puid := v.puid
    pgid := v.pgid
    enable_usenet := v.enable_usenet
    enable_torrents := v.enable_torrents
    enable_vpn := v.enable_vpn
    vpn_provider := v.vpn_provider
    vpn_username := v.vpn_username
    vpn_password := v.vpn_password
    extra_services :=
      (if v.extra_bazarr then ["bazarr"] else []) ++
      (if v.extra_overseerr then ["overseerr"] else []) ++
      (if v.extra_tautulli then ["tautulli"] else []) ++
      (if v.extra_portainer then ["portainer"] else [])
    enable_transcoding := v.transcoding.isSome
    transcoding_type :=
      match v.transcoding with
      | none => ""
      | some .nvidia => "nvidia"
      | some .intel => "intel" }

/-! ### Port signature

`sigOf` forgets everything about a graph except each service's name and port
list; every claim about host-port collisions is a statement about this
projection.  `setPorts` is dict assignment at the signature level, mirroring
`insertService` step for step. -/

/-- Name-and-ports projection of a graph. -/
def sigOf (g : Graph) : List (String × List String) := g.map (fun e => (e.1, e.2.ports))

/-- Dict assignment on a ports signature (same recursion as `insertService`). -/
def setPorts : List (String × List String) → String → List String → List (String × List String)
  | [], k, p => [(k, p)]
  | (k₀, p₀) :: rest, k, p =>
    if k₀ = k then (k, p) :: rest else (k₀, p₀) :: setPorts rest k p

/-- Dict lookup on a ports signature. -/
def lookupP : List (String × List String) → String → Option (List String)
  | [], _ => none
  | (k₀, p₀) :: rest, k => if k₀ = k then some p₀ else lookupP rest k

/-- Flattened (host port, protocol) pairs of a ports signature. -/
def sigPortKeys (s : List (String × List String)) : List (String × String) :=
  ((s.map (fun e => e.2)).flatten).map portKey

/-- Host ports of the media-server service, by selected server. -/
def mediaPortsStr (server : String) : List String :=
  if server = "plex" then []
  else if server = "jellyfin" then ["8096:8096"]
  else if server = "emby" then ["8096:8096"]
  else []

/-- Ports signature of the torrent and usenet parts of `_add_downloader`. -/
def sigDownloader (c : UserConfig) (s : List (String × List String)) :
    List (String × List String) :=
  let s :=
    if c.enable_torrents then
      setPorts s "qbittorrent" ["8080:8080", "6881:6881", "6881:6881/udp"]
    else s
  if c.enable_usenet then setPorts s (ucName c) (ucPorts c) else s

/-- Ports signature of `_add_vpn`: gluetun takes the torrent ports and, when
qbittorrent exists, qbittorrent's ports are popped. -/
def sigVpn (c : UserConfig) (s : List (String × List String)) :
    List (String × List String) :=
  if !c.enable_vpn then s
  else
    let s := setPorts s "gluetun" ["8080:8080", "6881:6881", "6881:6881/udp"]
    match lookupP s "qbittorrent" with
    | none => s
    | some _ => setPorts s "qbittorrent" []

/-- Name of the usenet client a valid downloader choice resolves to. -/
def ucStrE : DownloaderChoice → String
  | .nzbget => "nzbget"
  | _ => "sabnzbd"

/-- Port mapping of the usenet client a valid downloader choice resolves to. -/
def ucPortsE : DownloaderChoice → List String
  | .nzbget => ["6789:6789"]
  | _ => ["8080:8080"]

/-- Ports signature of the whole pipeline on a valid configuration, as a
function of the enumerated choices and toggles only (the free-form string
fields of the configuration never influence any port). -/
def portsSig (ms : MediaServer) (dl : DownloaderChoice) (gw : GatewayChoice)
    (db : DashboardChoice) (tor usenet vpn xb xo xt xp : Bool) :
    List (String × List String) :=
  let s := setPorts [] ms.str (mediaPortsStr ms.str)
  let s := setPorts s "radarr" ["7878:7878"]
  let s := setPorts s "sonarr" ["8989:8989"]
  let s := setPorts s "lidarr" ["8686:8686"]
  let s := setPorts s "readarr" ["8787:8787"]
  let s := setPorts s "prowlarr" ["9696:9696"]
  let s := if tor then setPorts s "qbittorrent" ["8080:8080", "6881:6881", "6881:6881/udp"] else s
  let s := if usenet then setPorts s (ucStrE dl) (ucPortsE dl) else s
  let s :=
    match gw with
    | .traefik => setPorts s "traefik" ["80:80", "8081:8080"]
    | .nginxProxyManager => setPorts s "nginx-proxy-manager" ["80:80", "443:443", "81:81"]
  let s :=
    match db with
    | .homepage => setPorts s "homepage" ["3000:3000"]
    | .heimdall => setPorts s "heimdall" ["3000:80"]
  let s := setPorts s "watchtower" []
  let s := if xb then setPorts s "bazarr" ["6767:6767"] else s
  let s := if xo then setPorts s "overseerr" ["5055:5055"] else s
  let s := if xt then setPorts s "tautulli" ["8181:8181"] else s
  let s := if xp then setPorts s "portainer" ["9000:9000"] else s
  if vpn then
    let s := setPorts s "gluetun" ["8080:8080", "6881:6881", "6881:6881/udp"]
    match lookupP s "qbittorrent" with
    | none => s
    | some _ => setPorts s "qbittorrent" []
  else s

/-! ### Wizard state machine

`SetupWizard.run` executes its eleven collection steps in order; the first
step returning falsy shows "Setup cancelled." and returns 1 with nothing else
done.  Otherwise it creates directories, generates the compose file (invoking
the rules engine: an unknown media server raises there, caught by the
surrounding `except` as "Setup failed"), generates the dashboard config, and
deploys; a failing deployment shows "Deployment encountered errors." and
returns 1.  A step's interactive outcome is modelled as a function from the
partial configuration to `Option UserConfig` (`none` = abort); the observable
result of a run is its exit code plus the ordered trace of external actions
and final dialogs. -/

/-- The `for step in steps` loop: thread the configuration through the steps,
stopping at the first abort. -/
def runSteps : UserConfig → List (UserConfig → Option UserConfig) → Option UserConfig
  | c, [] => some c
  | c, step :: rest =>
    match step c with
    | none => none
    | some c₁ => runSteps c₁ rest

/-- `SetupWizard.run`: exit code and trace of external effects and final
dialogs.  `deployOk` abstracts the exit status of the deployment command. -/
def runWizard (steps : List (UserConfig → Option UserConfig)) (deployOk : Bool) :
    Int × List String :=
  match runSteps {} steps with
  | none => (1, ["msgbox:Setup cancelled."])
  | some c =>
    match generate c with
    | none => (1, ["create_directories", "msgbox:Setup failed"])
    | some _ =>
      if deployOk then
        (0, ["create_directories", "generate_compose", "generate_homepage_config",
             "deploy", "msgbox:completion"])
      else
        (1, ["create_directories", "generate_compose", "generate_homepage_config",
             "deploy", "msgbox:Deployment encountered errors."])

/-! ### Concrete configurations used in the analysis -/

/-- Both transports enabled, usenet client sabnzbd (a wizard-selectable
combination: `select_downloader` offers sabnzbd whenever usenet is on). -/
def cfgBothTransports : ValidConfig :=
  { enable_usenet := true, enable_torrents := true, downloader := .sabnzbd }

/-- A configuration whose gateway field holds an unrecognized value. -/
def cfgUnknownGateway : UserConfig := { gateway := "caddy" }

/-- Both transports enabled with the nzbget usenet client. -/
def cfgNzbBoth : ValidConfig :=
  { enable_usenet := true, enable_torrents := true, downloader := .nzbget }

/-- Host-port mapping of each arr-suite service (the `arr_configs` table). -/
def arrPortOf (name : String) : String :=
  if name = "radarr" then "7878:7878"
  else if name = "sonarr" then "8989:8989"
  else if name = "lidarr" then "8686:8686"
  else if name = "readarr" then "8787:8787"
  else "9696:9696"

/-- Plex as media server, all other fields default. -/
def cfgPlexValid : ValidConfig := { media_server := .plex }

/-- Torrents (default on) plus the privacy tunnel. -/
def cfgVpnValid : ValidConfig := { enable_vpn := true, vpn_provider := "nordvpn" }

def graphVpn : Graph := (generate cfgVpnValid.toUserConfig).getD []

def qbVpn : ServiceSpec := (lookupService graphVpn "qbittorrent").getD {}

/-- Both transports disabled. -/
def cfgNoTransports : ValidConfig := { enable_torrents := false, enable_usenet := false }

def graphNoTransports : Graph := (generate cfgNoTransports.toUserConfig).getD []

/-- Usenet enabled while the downloader field stays qbittorrent. -/
def cfgUsenetDefault : ValidConfig := { enable_usenet := true, downloader := .qbittorrent }

def graphUsenetDefault : Graph := (generate cfgUsenetDefault.toUserConfig).getD []

/-- The all-defaults valid configuration. -/
def cfgDefault : ValidConfig := {}

def graphDefault : Graph := (generate cfgDefault.toUserConfig).getD []

def watchtowerEntry : ServiceSpec := (lookupService graphDefault "watchtower").getD {}

/-! ### Invariant predicates over a Service Graph -/

/-- One entry names itself: `container_name` equals the dict key, and the
restart policy is unless-stopped. -/
def nameRestartP : String → ServiceSpec → Prop :=
  fun k s => s.container_name = k ∧ s.restart = "unless-stopped"

/-- Every entry of the graph satisfies `nameRestartP`. -/
def NameRestartOk (g : Graph) : Prop := ∀ e ∈ g, nameRestartP e.1 e.2

/-- One entry with a set `network_mode` has no ports of its own. -/
def portsNetP : String → ServiceSpec → Prop :=
  fun _ s => s.network_mode ≠ none → s.ports = []

/-- Ports and `network_mode` are mutually exclusive across the graph. -/
def PortsNetOk (g : Graph) : Prop := ∀ e ∈ g, portsNetP e.1 e.2

/-- Reference integrity: every `depends_on` entry resolves to a key of the
graph, and every `network_mode` is either unset, the Docker host-network
literal, or a `service:` reference to the gluetun service present in the
graph. -/
def RefsOk (g : Graph) : Prop :=
  ∀ e ∈ g, (∀ d ∈ e.2.depends_on, d ∈ keysOf g) ∧
    (e.2.network_mode = none ∨ e.2.network_mode = some "host" ∨
      (e.2.network_mode = some "service:gluetun" ∧ "gluetun" ∈ keysOf g))

end Astro

/-! ## Lemmas about the dict operations -/

namespace Astro

theorem sigOf_nil : sigOf [] = [] := rfl

theorem sigOf_cons (e : String × ServiceSpec) (g : Graph) :
    sigOf (e :: g) = (e.1, e.2.ports) :: sigOf g := rfl

theorem keysOf_nil : keysOf [] = [] := rfl

theorem keysOf_cons (e : String × ServiceSpec) (g : Graph) :
    keysOf (e :: g) = e.1 :: keysOf g := rfl

theorem insertService_nil (k : String) (v : ServiceSpec) :
    insertService [] k v = [(k, v)] := rfl

theorem insertService_cons (k₀ : String) (v₀ : ServiceSpec) (g : Graph)
    (k : String) (v : ServiceSpec) :
    insertService ((k₀, v₀) :: g) k v =
      if k₀ = k then (k, v) :: g else (k₀, v₀) :: insertService g k v := rfl

theorem lookupService_nil (k : String) : lookupService [] k = none := rfl

theorem lookupService_cons (k₀ : String) (v₀ : ServiceSpec) (g : Graph) (k : String) :
    lookupService ((k₀, v₀) :: g) k =
      if k₀ = k then some v₀ else lookupService g k := rfl

theorem setPorts_cons (k₀ : String) (p₀ : List String)
    (s : List (String × List String)) (k : String) (p : List String) :
    setPorts ((k₀, p₀) :: s) k p =
      if k₀ = k then (k, p) :: s else (k₀, p₀) :: setPorts s k p := rfl

theorem lookupP_cons (k₀ : String) (p₀ : List String)
    (s : List (String × List String)) (k : String) :
    lookupP ((k₀, p₀) :: s) k = if k₀ = k then some p₀ else lookupP s k := rfl

theorem sigOf_insertService (g : Graph) (k : String) (v : ServiceSpec) :
    sigOf (insertService g k v) = setPorts (sigOf g) k v.ports := by
  induction g with
  | nil => rfl
  | cons e rest ih =>
    obtain ⟨k₀, v₀⟩ := e
    rw [insertService_cons, sigOf_cons, setPorts_cons]
    by_cases h : k₀ = k
    · rw [if_pos h, if_pos h, sigOf_cons]
    · rw [if_neg h, if_neg h, sigOf_cons, ih]

theorem lookupP_sigOf (g : Graph) (k : String) :
    lookupP (sigOf g) k = (lookupService g k).map (fun s => s.ports) := by
  induction g with
  | nil => rfl
  | cons e rest ih =>
    obtain ⟨k₀, v₀⟩ := e
    rw [sigOf_cons, lookupP_cons, lookupService_cons]
    by_cases h : k₀ = k
    · rw [if_pos h, if_pos h]
      rfl
    · rw [if_neg h, if_neg h, ih]

theorem lookupService_insert_self (g : Graph) (k : String) (v : ServiceSpec) :
    lookupService (insertService g k v) k = some v := by
  induction g with
  | nil => rw [insertService_nil, lookupService_cons, if_pos rfl]
  | cons e rest ih =>
    obtain ⟨k₀, v₀⟩ := e
    rw [insertService_cons]
    by_cases h : k₀ = k
    · rw [if_pos h, lookupService_cons, if_pos rfl]
    · rw [if_neg h, lookupService_cons, if_neg h, ih]

theorem lookupService_insert_ne (g : Graph) (k a : String) (v : ServiceSpec)
    (h : a ≠ k) : lookupService (insertService g k v) a = lookupService g a := by
  induction g with
  | nil =>
    rw [insertService_nil, lookupService_cons, if_neg (Ne.symm h), lookupService_nil]
  | cons e rest ih =>
    obtain ⟨k₀, v₀⟩ := e
    rw [insertService_cons]
    by_cases h₀ : k₀ = k
    · rw [if_pos h₀, lookupService_cons, lookupService_cons, if_neg (Ne.symm h),
        if_neg (h₀ ▸ Ne.symm h)]
    · rw [if_neg h₀, lookupService_cons, lookupService_cons, ih]

theorem mem_keysOf_insertService (g : Graph) (k a : String) (v : ServiceSpec) :
    a ∈ keysOf (insertService g k v) ↔ a ∈ keysOf g ∨ a = k := by
  induction g with
  | nil =>
    rw [insertService_nil, keysOf_cons, keysOf_nil]
    simp
  | cons e rest ih =>
    obtain ⟨k₀, v₀⟩ := e
    rw [insertService_cons]
    by_cases h : k₀ = k
    · rw [if_pos h, keysOf_cons, keysOf_cons]
      subst h
      simp only [List.mem_cons]
      tauto
    · rw [if_neg h, keysOf_cons, keysOf_cons]
      simp only [List.mem_cons, ih]
      tauto

theorem lookupService_eq_none (g : Graph) (k : String) :
    lookupService g k = none ↔ k ∉ keysOf g := by
  induction g with
  | nil => simp [lookupService_nil, keysOf_nil]
  | cons e rest ih =>
    obtain ⟨k₀, v₀⟩ := e
    rw [lookupService_cons, keysOf_cons]
    by_cases h : k₀ = k
    · subst h
      rw [if_pos rfl]
      simp
    · rw [if_neg h]
      simp only [List.mem_cons, ih]
      constructor
      · intro h₁ h₂
        rcases h₂ with h₂ | h₂
        · exact h (h₂.symm)
        · exact h₁ h₂
      · intro h₁
        exact fun h₂ => h₁ (Or.inr h₂)

theorem lookupService_mem (g : Graph) (k : String) (s : ServiceSpec)
    (h : lookupService g k = some s) : (k, s) ∈ g := by
  induction g with
  | nil => simp [lookupService_nil] at h
  | cons e rest ih =>
    obtain ⟨k₀, v₀⟩ := e
    rw [lookupService_cons] at h
    by_cases h₀ : k₀ = k
    · rw [if_pos h₀] at h
      subst h₀
      cases h
      exact List.mem_cons_self _ _
    · rw [if_neg h₀] at h
      exact List.mem_cons_of_mem _ (ih h)

theorem mem_insertService (g : Graph) (k : String) (v : ServiceSpec)
    (e : String × ServiceSpec) (h : e ∈ insertService g k v) :
    e ∈ g ∨ e = (k, v) := by
  induction g with
  | nil =>
    rw [insertService_nil] at h
    simp only [List.mem_singleton] at h
    exact Or.inr h
  | cons e₀ rest ih =>
    obtain ⟨k₀, v₀⟩ := e₀
    rw [insertService_cons] at h
    by_cases h₀ : k₀ = k
    · rw [if_pos h₀] at h
      rcases List.mem_cons.mp h with h₁ | h₁
      · exact Or.inr h₁
      · exact Or.inl (List.mem_cons_of_mem _ h₁)
    · rw [if_neg h₀] at h
      rcases List.mem_cons.mp h with h₁ | h₁
      · exact Or.inl (List.mem_cons.mpr (Or.inl h₁))
      · rcases ih h₁ with h₂ | h₂
        · exact Or.inl (List.mem_cons_of_mem _ h₂)
        · exact Or.inr h₂

theorem insertService_lookup_eq (g : Graph) (k : String) (v : ServiceSpec)
    (h : lookupService g k = some v) : insertService g k v = g := by
  induction g with
  | nil => simp [lookupService_nil] at h
  | cons e rest ih =>
    obtain ⟨k₀, v₀⟩ := e
    rw [lookupService_cons] at h
    rw [insertService_cons]
    by_cases h₀ : k₀ = k
    · rw [if_pos h₀] at h ⊢
      cases h
      rw [h₀]
    · rw [if_neg h₀] at h ⊢
      rw [ih h]

theorem sigOf_insert_same_ports (g : Graph) (k : String) (s v : ServiceSpec)
    (h : lookupService g k = some s) (hp : v.ports = s.ports) :
    sigOf (insertService g k v) = sigOf g := by
  induction g with
  | nil => simp [lookupService_nil] at h
  | cons e rest ih =>
    obtain ⟨k₀, v₀⟩ := e
    rw [lookupService_cons] at h
    rw [insertService_cons]
    by_cases h₀ : k₀ = k
    · rw [if_pos h₀] at h ⊢
      cases h
      rw [sigOf_cons, sigOf_cons, hp, h₀]
    · rw [if_neg h₀] at h ⊢
      rw [sigOf_cons, sigOf_cons, ih h]

theorem keysOf_insertService_mem (g : Graph) (k : String) (v : ServiceSpec)
    (h : k ∈ keysOf g) : keysOf (insertService g k v) = keysOf g := by
  induction g with
  | nil => simp [keysOf_nil] at h
  | cons e rest ih =>
    obtain ⟨k₀, v₀⟩ := e
    rw [insertService_cons]
    by_cases h₀ : k₀ = k
    · rw [if_pos h₀, keysOf_cons, keysOf_cons, h₀]
    · rw [keysOf_cons, List.mem_cons] at h
      rcases h with h | h
      · exact absurd h.symm h₀
      · rw [if_neg h₀, keysOf_cons, keysOf_cons, ih h]

/-! ### Stage lemmas: the name-and-ports signature of each pipeline stage -/

theorem sigOf_addMediaServer (c : UserConfig) (img : String) (g : Graph) :
    sigOf (addMediaServer c img g) =
      setPorts (sigOf g) c.media_server (mediaPortsStr c.media_server) := by
  unfold addMediaServer mediaPortsStr
  by_cases h₁ : c.media_server = "plex"
  · simp [h₁, sigOf_insertService]
  · by_cases h₂ : c.media_server = "jellyfin"
    · simp [h₁, h₂, sigOf_insertService]
    · by_cases h₃ : c.media_server = "emby" <;> simp [h₁, h₂, h₃, sigOf_insertService]

theorem sigOf_addArrSuite (c : UserConfig) (g : Graph) :
    sigOf (addArrSuite c g) =
      setPorts (setPorts (setPorts (setPorts (setPorts (sigOf g)
        "radarr" ["7878:7878"]) "sonarr" ["8989:8989"]) "lidarr" ["8686:8686"])
        "readarr" ["8787:8787"]) "prowlarr" ["9696:9696"] := by
  simp [addArrSuite, sigOf_insertService, arrService]

theorem sigOf_addDownloader (c : UserConfig) (g : Graph) :
    sigOf (addDownloader c g) = sigDownloader c (sigOf g) := by
  unfold addDownloader sigDownloader
  cases htor : c.enable_torrents <;> cases huse : c.enable_usenet <;>
    simp [htor, huse, sigOf_insertService, qbtSpec, usenetSpec]

theorem sigOf_addGateway (c : UserConfig) (g : Graph) :
    sigOf (addGateway c g) =
      if c.gateway = "traefik" then setPorts (sigOf g) "traefik" ["80:80", "8081:8080"]
      else if c.gateway = "nginx-proxy-manager" then
        setPorts (sigOf g) "nginx-proxy-manager" ["80:80", "443:443", "81:81"]
      else sigOf g := by
  unfold addGateway
  by_cases h₁ : c.gateway = "traefik"
  · simp [h₁, sigOf_insertService]
  · by_cases h₂ : c.gateway = "nginx-proxy-manager" <;> simp [h₁, h₂, sigOf_insertService]

theorem sigOf_addDashboard (c : UserConfig) (g : Graph) :
    sigOf (addDashboard c g) =
      if c.dashboard = "homepage" then setPorts (sigOf g) "homepage" ["3000:3000"]
      else if c.dashboard = "heimdall" then setPorts (sigOf g) "heimdall" ["3000:80"]
      else sigOf g := by
  unfold addDashboard
  by_cases h₁ : c.dashboard = "homepage"
  · simp [h₁, sigOf_insertService]
  · by_cases h₂ : c.dashboard = "heimdall" <;> simp [h₁, h₂, sigOf_insertService]

theorem sigOf_addWatchtower (g : Graph) :
    sigOf (addWatchtower g) = setPorts (sigOf g) "watchtower" [] := by
  simp [addWatchtower, sigOf_insertService]

theorem sigOf_addExtras (c : UserConfig) (g : Graph) :
    sigOf (addExtras c g) =
      (let s := sigOf g
       let s := if "bazarr" ∈ c.extra_services then setPorts s "bazarr" ["6767:6767"] else s
       let s := if "overseerr" ∈ c.extra_services then setPorts s "overseerr" ["5055:5055"] else s
       let s := if "tautulli" ∈ c.extra_services then setPorts s "tautulli" ["8181:8181"] else s
       if "portainer" ∈ c.extra_services then setPorts s "portainer" ["9000:9000"] else s) := by
  unfold addExtras
  by_cases h₁ : "bazarr" ∈ c.extra_services <;>
    by_cases h₂ : "overseerr" ∈ c.extra_services <;>
      by_cases h₃ : "tautulli" ∈ c.extra_services <;>
        by_cases h₄ : "portainer" ∈ c.extra_services <;>
          simp [h₁, h₂, h₃, h₄, sigOf_insertService]

theorem sigOf_addVpn (c : UserConfig) (g : Graph) :
    sigOf (addVpn c g) = sigVpn c (sigOf g) := by
  unfold addVpn sigVpn
  cases hv : c.enable_vpn
  · simp
  · simp only [Bool.not_true, Bool.false_eq_true, if_false]
    rw [show setPorts (sigOf g) "gluetun" ["8080:8080", "6881:6881", "6881:6881/udp"]
        = sigOf (insertService g "gluetun" (gluetunSpec c)) from
      (sigOf_insertService g "gluetun" (gluetunSpec c)).symm]
    rw [lookupP_sigOf]
    cases hq : lookupService (insertService g "gluetun" (gluetunSpec c)) "qbittorrent"
    · simp
    · simp [sigOf_insertService]

theorem sigOf_configureTranscoding (c : UserConfig) (g : Graph) :
    sigOf (configureTranscoding c g) = sigOf g := by
  unfold configureTranscoding
  split
  · rfl
  split
  · rfl
  rename_i s hl
  split
  · split <;> exact sigOf_insert_same_ports g _ s _ hl rfl
  split
  · exact sigOf_insert_same_ports g _ s _ hl rfl
  · rfl

/-! ### The ports signature of a full run -/

theorem toUserConfig_media (v : ValidConfig) :
    v.toUserConfig.media_server = v.media_server.str := rfl

theorem lookupImage_valid (v : ValidConfig) :
    lookupImage IMAGES v.toUserConfig.media_server = some (imageOf v.media_server.str) := by
  rw [toUserConfig_media]
  cases v.media_server <;> rfl

theorem mem_extras_bazarr (b1 b2 b3 b4 : Bool) :
    ("bazarr" ∈ (if b1 then ["bazarr"] else []) ++ (if b2 then ["overseerr"] else []) ++
      (if b3 then ["tautulli"] else []) ++ (if b4 then ["portainer"] else [])) ↔
      b1 = true := by
  cases b1 <;> cases b2 <;> cases b3 <;> cases b4 <;> simp

theorem mem_extras_overseerr (b1 b2 b3 b4 : Bool) :
    ("overseerr" ∈ (if b1 then ["bazarr"] else []) ++ (if b2 then ["overseerr"] else []) ++
      (if b3 then ["tautulli"] else []) ++ (if b4 then ["portainer"] else [])) ↔
      b2 = true := by
  cases b1 <;> cases b2 <;> cases b3 <;> cases b4 <;> simp

theorem mem_extras_tautulli (b1 b2 b3 b4 : Bool) :
    ("tautulli" ∈ (if b1 then ["bazarr"] else []) ++ (if b2 then ["overseerr"] else []) ++
      (if b3 then ["tautulli"] else []) ++ (if b4 then ["portainer"] else [])) ↔
      b3 = true := by
  cases b1 <;> cases b2 <;> cases b3 <;> cases b4 <;> simp

theorem mem_extras_portainer (b1 b2 b3 b4 : Bool) :
    ("portainer" ∈ (if b1 then ["bazarr"] else []) ++ (if b2 then ["overseerr"] else []) ++
      (if b3 then ["tautulli"] else []) ++ (if b4 then ["portainer"] else [])) ↔
      b4 = true := by
  cases b1 <;> cases b2 <;> cases b3 <;> cases b4 <;> simp

theorem sigOf_generate (v : ValidConfig) (g : Graph)
    (h : generate v.toUserConfig = some g) :
    sigOf g = portsSig v.media_server v.downloader v.gateway v.dashboard
      v.enable_torrents v.enable_usenet v.enable_vpn
      v.extra_bazarr v.extra_overseerr v.extra_tautulli v.extra_portainer := by
  unfold generate at h
  rw [lookupImage_valid v] at h
  injection h with h
  subst h
  rw [sigOf_configureTranscoding, sigOf_addVpn, sigOf_addExtras, sigOf_addWatchtower,
    sigOf_addDashboard, sigOf_addGateway, sigOf_addDownloader, sigOf_addArrSuite,
    sigOf_addMediaServer]
  rcases v with ⟨ms, dl, gw, db, tz, pu, pg, use, tor, vpn, p1, p2, p3, b1, b2, b3, b4, tr⟩
  cases ms <;> cases dl <;> cases gw <;> cases db <;> cases vpn <;>
    simp [ValidConfig.toUserConfig, MediaServer.str, DownloaderChoice.str,
      GatewayChoice.str, DashboardChoice.str, sigDownloader, sigVpn, ucName, ucPorts,
      ucStrE, ucPortsE, portsSig, mediaPortsStr, sigOf_nil,
      mem_extras_bazarr, mem_extras_overseerr, mem_extras_tautulli, mem_extras_portainer]

theorem sigPortKeys_sigOf (g : Graph) : sigPortKeys (sigOf g) = allPortKeys g := by
  unfold sigPortKeys sigOf allPortKeys allPorts
  rw [List.map_map]
  rfl

set_option maxHeartbeats 2000000 in
theorem portsSig_nodup (ms : MediaServer) (dl : DownloaderChoice) (gw : GatewayChoice)
    (db : DashboardChoice) (tor usenet vpn b1 b2 b3 b4 : Bool)
    (h : ¬(usenet = true ∧ dl ≠ .nzbget ∧ (tor = true ∨ vpn = true))) :
    (sigPortKeys (portsSig ms dl gw db tor usenet vpn b1 b2 b3 b4)).Nodup := by
  revert h
  cases ms <;> cases dl <;> cases gw <;> cases db <;> cases tor <;> cases usenet <;>
    cases vpn <;> cases b1 <;> cases b2 <;> cases b3 <;> cases b4 <;> decide

/-! ### Pointwise invariants preserved by every pipeline stage -/

theorem inv_insertService (P : String → ServiceSpec → Prop) (g : Graph)
    (k : String) (v : ServiceSpec)
    (hg : ∀ e ∈ g, P e.1 e.2) (hv : P k v) :
    ∀ e ∈ insertService g k v, P e.1 e.2 := by
  intro e he
  rcases mem_insertService g k v e he with h | h
  · exact hg e h
  · rw [h]
    exact hv

theorem nameRestartOk_nil : NameRestartOk [] := by
  intro e he
  exact absurd he (List.not_mem_nil e)

theorem nameRestartOk_addMediaServer (c : UserConfig) (img : String) (g : Graph)
    (hg : NameRestartOk g) : NameRestartOk (addMediaServer c img g) := by
  unfold addMediaServer
  refine inv_insertService nameRestartP _ _ _ hg ?_
  unfold nameRestartP
  split_ifs <;> exact ⟨rfl, rfl⟩

theorem nameRestartOk_addArrSuite (c : UserConfig) (g : Graph)
    (hg : NameRestartOk g) : NameRestartOk (addArrSuite c g) := by
  unfold addArrSuite
  exact inv_insertService nameRestartP _ _ _ (inv_insertService nameRestartP _ _ _
    (inv_insertService nameRestartP _ _ _ (inv_insertService nameRestartP _ _ _
    (inv_insertService nameRestartP _ _ _ hg ⟨rfl, rfl⟩) ⟨rfl, rfl⟩)
    ⟨rfl, rfl⟩) ⟨rfl, rfl⟩) ⟨rfl, rfl⟩

theorem nameRestartOk_addDownloader (c : UserConfig) (g : Graph)
    (hg : NameRestartOk g) : NameRestartOk (addDownloader c g) := by
  unfold addDownloader
  split_ifs <;>
    first
      | exact hg
      | exact inv_insertService nameRestartP _ _ _ hg ⟨rfl, rfl⟩
      | exact inv_insertService nameRestartP _ _ _
          (inv_insertService nameRestartP _ _ _ hg ⟨rfl, rfl⟩) ⟨rfl, rfl⟩

theorem nameRestartOk_addGateway (c : UserConfig) (g : Graph)
    (hg : NameRestartOk g) : NameRestartOk (addGateway c g) := by
  unfold addGateway
  split_ifs <;>
    first
      | exact hg
      | exact inv_insertService nameRestartP _ _ _ hg ⟨rfl, rfl⟩

theorem nameRestartOk_addDashboard (c : UserConfig) (g : Graph)
    (hg : NameRestartOk g) : NameRestartOk (addDashboard c g) := by
  unfold addDashboard
  split_ifs <;>
    first
      | exact hg
      | exact inv_insertService nameRestartP _ _ _ hg ⟨rfl, rfl⟩

theorem nameRestartOk_addWatchtower (g : Graph)
    (hg : NameRestartOk g) : NameRestartOk (addWatchtower g) := by
  unfold addWatchtower
  exact inv_insertService nameRestartP _ _ _ hg ⟨rfl, rfl⟩

theorem nameRestartOk_addExtras (c : UserConfig) (g : Graph)
    (hg : NameRestartOk g) : NameRestartOk (addExtras c g) := by
  unfold addExtras
  split_ifs <;>
    first
      | exact hg
      | exact inv_insertService nameRestartP _ _ _ hg ⟨rfl, rfl⟩
      | exact inv_insertService nameRestartP _ _ _
          (inv_insertService nameRestartP _ _ _ hg ⟨rfl, rfl⟩) ⟨rfl, rfl⟩
      | exact inv_insertService nameRestartP _ _ _ (inv_insertService nameRestartP _ _ _
          (inv_insertService nameRestartP _ _ _ hg ⟨rfl, rfl⟩) ⟨rfl, rfl⟩) ⟨rfl, rfl⟩
      | exact inv_insertService nameRestartP _ _ _ (inv_insertService nameRestartP _ _ _
          (inv_insertService nameRestartP _ _ _ (inv_insertService nameRestartP _ _ _
          hg ⟨rfl, rfl⟩) ⟨rfl, rfl⟩) ⟨rfl, rfl⟩) ⟨rfl, rfl⟩

theorem nameRestartOk_addVpn (c : UserConfig) (g : Graph)
    (hg : NameRestartOk g) : NameRestartOk (addVpn c g) := by
  unfold addVpn
  split
  · exact hg
  · have hg₁ : NameRestartOk (insertService g "gluetun" (gluetunSpec c)) :=
      inv_insertService nameRestartP _ _ _ hg ⟨rfl, rfl⟩
    dsimp only
    split
    · exact hg₁
    · rename_i qb hq
      refine inv_insertService nameRestartP _ _ _ hg₁ ?_
      obtain ⟨h1, h2⟩ := hg₁ _ (lookupService_mem _ _ _ hq)
      exact ⟨h1, h2⟩

theorem nameRestartOk_configureTranscoding (c : UserConfig) (g : Graph)
    (hg : NameRestartOk g) : NameRestartOk (configureTranscoding c g) := by
  unfold configureTranscoding
  split
  · exact hg
  split
  · exact hg
  rename_i s hl
  have hs := hg _ (lookupService_mem _ _ _ hl)
  split
  · split <;> exact inv_insertService nameRestartP _ _ _ hg ⟨hs.1, hs.2⟩
  split
  · exact inv_insertService nameRestartP _ _ _ hg ⟨hs.1, hs.2⟩
  · exact hg

theorem nameRestartOk_generate (c : UserConfig) (g : Graph)
    (h : generate c = some g) : NameRestartOk g := by
  unfold generate at h
  cases him : lookupImage IMAGES c.media_server with
  | none =>
    rw [him] at h
    exact Option.noConfusion h
  | some img =>
    rw [him] at h
    injection h with h
    subst h
    exact nameRestartOk_configureTranscoding _ _ (nameRestartOk_addVpn _ _
      (nameRestartOk_addExtras _ _ (nameRestartOk_addWatchtower _
      (nameRestartOk_addDashboard _ _ (nameRestartOk_addGateway _ _
      (nameRestartOk_addDownloader _ _ (nameRestartOk_addArrSuite _ _
      (nameRestartOk_addMediaServer _ _ _ nameRestartOk_nil))))))))

theorem portsNetOk_nil : PortsNetOk [] := by
  intro e he
  exact absurd he (List.not_mem_nil e)

theorem portsNetOk_addMediaServer (c : UserConfig) (img : String) (g : Graph)
    (hg : PortsNetOk g) : PortsNetOk (addMediaServer c img g) := by
  unfold addMediaServer
  refine inv_insertService portsNetP _ _ _ hg ?_
  unfold portsNetP
  -- plex: `ports` stays `[]`; other branches: `network_mode` is `none`.
  split_ifs <;>
    first
      | exact fun _ => rfl
      | exact fun h => (h rfl).elim

theorem portsNetOk_addArrSuite (c : UserConfig) (g : Graph)
    (hg : PortsNetOk g) : PortsNetOk (addArrSuite c g) := by
  unfold addArrSuite
  exact inv_insertService portsNetP _ _ _ (inv_insertService portsNetP _ _ _
    (inv_insertService portsNetP _ _ _ (inv_insertService portsNetP _ _ _
    (inv_insertService portsNetP _ _ _ hg (fun h => (h rfl).elim))
    (fun h => (h rfl).elim)) (fun h => (h rfl).elim)) (fun h => (h rfl).elim))
    (fun h => (h rfl).elim)

theorem portsNetOk_addDownloader (c : UserConfig) (g : Graph)
    (hg : PortsNetOk g) : PortsNetOk (addDownloader c g) := by
  unfold addDownloader
  split_ifs <;>
    first
      | exact hg
      | exact inv_insertService portsNetP _ _ _ hg (fun h => (h rfl).elim)
      | exact inv_insertService portsNetP _ _ _ (inv_insertService portsNetP _ _ _ hg
          (fun h => (h rfl).elim)) (fun h => (h rfl).elim)

theorem portsNetOk_addGateway (c : UserConfig) (g : Graph)
    (hg : PortsNetOk g) : PortsNetOk (addGateway c g) := by
  unfold addGateway
  split_ifs <;>
    first
      | exact hg
      | exact inv_insertService portsNetP _ _ _ hg (fun h => (h rfl).elim)

theorem portsNetOk_addDashboard (c : UserConfig) (g : Graph)
    (hg : PortsNetOk g) : PortsNetOk (addDashboard c g) := by
  unfold addDashboard
  split_ifs <;>
    first
      | exact hg
      | exact inv_insertService portsNetP _ _ _ hg (fun h => (h rfl).elim)

theorem portsNetOk_addWatchtower (g : Graph)
    (hg : PortsNetOk g) : PortsNetOk (addWatchtower g) := by
  unfold addWatchtower
  exact inv_insertService portsNetP _ _ _ hg (fun h => (h rfl).elim)

theorem portsNetOk_addExtras (c : UserConfig) (g : Graph)
    (hg : PortsNetOk g) : PortsNetOk (addExtras c g) := by
  unfold addExtras
  split_ifs <;>
    first
      | exact hg
      | exact inv_insertService portsNetP _ _ _ hg (fun h => (h rfl).elim)
      | exact inv_insertService portsNetP _ _ _ (inv_insertService portsNetP _ _ _ hg
          (fun h => (h rfl).elim)) (fun h => (h rfl).elim)
      | exact inv_insertService portsNetP _ _ _ (inv_insertService portsNetP _ _ _
          (inv_insertService portsNetP _ _ _ hg (fun h => (h rfl).elim))
          (fun h => (h rfl).elim)) (fun h => (h rfl).elim)
      | exact inv_insertService portsNetP _ _ _ (inv_insertService portsNetP _ _ _
          (inv_insertService portsNetP _ _ _ (inv_insertService portsNetP _ _ _ hg
          (fun h => (h rfl).elim)) (fun h => (h rfl).elim))
          (fun h => (h rfl).elim)) (fun h => (h rfl).elim)

theorem portsNetOk_addVpn (c : UserConfig) (g : Graph)
    (hg : PortsNetOk g) : PortsNetOk (addVpn c g) := by
  unfold addVpn
  split
  · exact hg
  · have hg₁ : PortsNetOk (insertService g "gluetun" (gluetunSpec c)) :=
      inv_insertService portsNetP _ _ _ hg (fun h => (h rfl).elim)
    dsimp only
    split
    · exact hg₁
    · exact inv_insertService portsNetP _ _ _ hg₁ (fun _ => rfl)

theorem portsNetOk_configureTranscoding (c : UserConfig) (g : Graph)
    (hg : PortsNetOk g) : PortsNetOk (configureTranscoding c g) := by
  unfold configureTranscoding
  split
  · exact hg
  split
  · exact hg
  rename_i s hl
  have hs := hg _ (lookupService_mem _ _ _ hl)
  split
  · split <;> exact inv_insertService portsNetP _ _ _ hg hs
  split
  · exact inv_insertService portsNetP _ _ _ hg hs
  · exact hg

theorem portsNetOk_generate (c : UserConfig) (g : Graph)
    (h : generate c = some g) : PortsNetOk g := by
  unfold generate at h
  cases him : lookupImage IMAGES c.media_server with
  | none =>
    rw [him] at h
    exact Option.noConfusion h
  | some img =>
    rw [him] at h
    injection h with h
    subst h
    exact portsNetOk_configureTranscoding _ _ (portsNetOk_addVpn _ _
      (portsNetOk_addExtras _ _ (portsNetOk_addWatchtower _
      (portsNetOk_addDashboard _ _ (portsNetOk_addGateway _ _
      (portsNetOk_addDownloader _ _ (portsNetOk_addArrSuite _ _
      (portsNetOk_addMediaServer _ _ _ portsNetOk_nil))))))))

/-! ### Reference integrity through the pipeline -/

theorem refsOk_upgrade (g : Graph) (k : String) (v : ServiceSpec)
    (e : String × ServiceSpec)
    (h : (∀ d ∈ e.2.depends_on, d ∈ keysOf g) ∧
      (e.2.network_mode = none ∨ e.2.network_mode = some "host" ∨
        (e.2.network_mode = some "service:gluetun" ∧ "gluetun" ∈ keysOf g))) :
    (∀ d ∈ e.2.depends_on, d ∈ keysOf (insertService g k v)) ∧
      (e.2.network_mode = none ∨ e.2.network_mode = some "host" ∨
        (e.2.network_mode = some "service:gluetun" ∧
          "gluetun" ∈ keysOf (insertService g k v))) := by
  obtain ⟨h1, h2⟩ := h
  refine ⟨fun d hd => (mem_keysOf_insertService g k d v).mpr (Or.inl (h1 d hd)), ?_⟩
  rcases h2 with h2 | h2 | ⟨h2, h3⟩
  · exact Or.inl h2
  · exact Or.inr (Or.inl h2)
  · exact Or.inr (Or.inr ⟨h2, (mem_keysOf_insertService g k _ v).mpr (Or.inl h3)⟩)

theorem refsOk_insert_plain (g : Graph) (k : String) (v : ServiceSpec)
    (hg : RefsOk g) (hdep : v.depends_on = [])
    (hnm : v.network_mode = none ∨ v.network_mode = some "host") :
    RefsOk (insertService g k v) := by
  intro e he
  rcases mem_insertService g k v e he with h | h
  · exact refsOk_upgrade g k v e (hg e h)
  · subst h
    constructor
    · intro d hd
      have hd₂ : d ∈ v.depends_on := hd
      rw [hdep] at hd₂
      exact absurd hd₂ (List.not_mem_nil d)
    · rcases hnm with h1 | h1
      · exact Or.inl h1
      · exact Or.inr (Or.inl h1)

theorem refsOk_nil : RefsOk [] := by
  intro e he
  exact absurd he (List.not_mem_nil e)

theorem refsOk_addMediaServer (c : UserConfig) (img : String) (g : Graph)
    (hg : RefsOk g) : RefsOk (addMediaServer c img g) := by
  unfold addMediaServer
  refine refsOk_insert_plain _ _ _ hg ?_ ?_
  · split_ifs <;> rfl
  · split_ifs
    · exact Or.inr rfl
    · exact Or.inl rfl
    · exact Or.inl rfl
    · exact Or.inl rfl

theorem refsOk_addArrSuite (c : UserConfig) (g : Graph)
    (hg : RefsOk g) : RefsOk (addArrSuite c g) := by
  unfold addArrSuite
  exact refsOk_insert_plain _ _ _ (refsOk_insert_plain _ _ _ (refsOk_insert_plain _ _ _
    (refsOk_insert_plain _ _ _ (refsOk_insert_plain _ _ _ hg rfl (Or.inl rfl))
    rfl (Or.inl rfl)) rfl (Or.inl rfl)) rfl (Or.inl rfl)) rfl (Or.inl rfl)

theorem refsOk_addDownloader (c : UserConfig) (g : Graph)
    (hg : RefsOk g) : RefsOk (addDownloader c g) := by
  unfold addDownloader
  split_ifs <;>
    first
      | exact hg
      | exact refsOk_insert_plain _ _ _ hg rfl (Or.inl rfl)
      | exact refsOk_insert_plain _ _ _
          (refsOk_insert_plain _ _ _ hg rfl (Or.inl rfl)) rfl (Or.inl rfl)

theorem refsOk_addGateway (c : UserConfig) (g : Graph)
    (hg : RefsOk g) : RefsOk (addGateway c g) := by
  unfold addGateway
  split_ifs <;>
    first
      | exact hg
      | exact refsOk_insert_plain _ _ _ hg rfl (Or.inl rfl)

theorem refsOk_addDashboard (c : UserConfig) (g : Graph)
    (hg : RefsOk g) : RefsOk (addDashboard c g) := by
  unfold addDashboard
  split_ifs <;>
    first
      | exact hg
      | exact refsOk_insert_plain _ _ _ hg rfl (Or.inl rfl)

theorem refsOk_addWatchtower (g : Graph)
    (hg : RefsOk g) : RefsOk (addWatchtower g) := by
  unfold addWatchtower
  exact refsOk_insert_plain _ _ _ hg rfl (Or.inl rfl)

theorem refsOk_addExtras (c : UserConfig) (g : Graph)
    (hg : RefsOk g) : RefsOk (addExtras c g) := by
  unfold addExtras
  split_ifs <;>
    first
      | exact hg
      | exact refsOk_insert_plain _ _ _ hg rfl (Or.inl rfl)
      | exact refsOk_insert_plain _ _ _
          (refsOk_insert_plain _ _ _ hg rfl (Or.inl rfl)) rfl (Or.inl rfl)
      | exact refsOk_insert_plain _ _ _ (refsOk_insert_plain _ _ _
          (refsOk_insert_plain _ _ _ hg rfl (Or.inl rfl)) rfl (Or.inl rfl))
          rfl (Or.inl rfl)
      | exact refsOk_insert_plain _ _ _ (refsOk_insert_plain _ _ _
          (refsOk_insert_plain _ _ _ (refsOk_insert_plain _ _ _ hg rfl (Or.inl rfl))
          rfl (Or.inl rfl)) rfl (Or.inl rfl)) rfl (Or.inl rfl)

theorem refsOk_addVpn (c : UserConfig) (g : Graph)
    (hg : RefsOk g) : RefsOk (addVpn c g) := by
  unfold addVpn
  split
  · exact hg
  · have hg₁ : RefsOk (insertService g "gluetun" (gluetunSpec c)) :=
      refsOk_insert_plain _ _ _ hg rfl (Or.inl rfl)
    have hglu : "gluetun" ∈ keysOf (insertService g "gluetun" (gluetunSpec c)) :=
      (mem_keysOf_insertService _ _ _ _).mpr (Or.inr rfl)
    dsimp only
    split
    · exact hg₁
    · rename_i qb hq
      intro e he
      rcases mem_insertService _ _ _ e he with h | h
      · exact refsOk_upgrade _ _ _ e (hg₁ e h)
      · subst h
        constructor
        · intro d hd
          have hd₂ : d ∈ ["gluetun"] := hd
          have hd₃ := List.mem_singleton.mp hd₂
          subst hd₃
          exact (mem_keysOf_insertService _ _ _ _).mpr (Or.inl hglu)
        · exact Or.inr (Or.inr ⟨rfl, (mem_keysOf_insertService _ _ _ _).mpr (Or.inl hglu)⟩)

theorem refsOk_configureTranscoding (c : UserConfig) (g : Graph)
    (hg : RefsOk g) : RefsOk (configureTranscoding c g) := by
  unfold configureTranscoding
  split
  · exact hg
  split
  · exact hg
  rename_i s hl
  have hs := hg _ (lookupService_mem _ _ _ hl)
  split
  · split <;>
      · intro e he
        rcases mem_insertService _ _ _ e he with h | h
        · exact refsOk_upgrade _ _ _ e (hg e h)
        · subst h
          exact refsOk_upgrade _ _ _ _ hs
  split
  · intro e he
    rcases mem_insertService _ _ _ e he with h | h
    · exact refsOk_upgrade _ _ _ e (hg e h)
    · subst h
      exact refsOk_upgrade _ _ _ _ hs
  · exact hg

theorem refsOk_generate (c : UserConfig) (g : Graph)
    (h : generate c = some g) : RefsOk g := by
  unfold generate at h
  cases him : lookupImage IMAGES c.media_server with
  | none =>
    rw [him] at h
    exact Option.noConfusion h
  | some img =>
    rw [him] at h
    injection h with h
    subst h
    exact refsOk_configureTranscoding _ _ (refsOk_addVpn _ _
      (refsOk_addExtras _ _ (refsOk_addWatchtower _
      (refsOk_addDashboard _ _ (refsOk_addGateway _ _
      (refsOk_addDownloader _ _ (refsOk_addArrSuite _ _
      (refsOk_addMediaServer _ _ _ refsOk_nil))))))))

/-! ### Tracking individual services through the pipeline -/

theorem ucName_cases (c : UserConfig) :
    ucName c = "sabnzbd" ∨ ucName c = "nzbget" := by
  unfold ucName
  split_ifs with h
  · simp only [List.mem_cons, List.not_mem_nil, or_false] at h
    exact h
  · exact Or.inl rfl

theorem lookup_addMediaServer_ne (c : UserConfig) (img : String) (g : Graph)
    (a : String) (h : a ≠ c.media_server) :
    lookupService (addMediaServer c img g) a = lookupService g a := by
  unfold addMediaServer
  exact lookupService_insert_ne _ _ _ _ h

theorem lookup_addArrSuite_ne (c : UserConfig) (g : Graph) (a : String)
    (h1 : a ≠ "radarr") (h2 : a ≠ "sonarr") (h3 : a ≠ "lidarr")
    (h4 : a ≠ "readarr") (h5 : a ≠ "prowlarr") :
    lookupService (addArrSuite c g) a = lookupService g a := by
  unfold addArrSuite
  rw [lookupService_insert_ne _ _ _ _ h5, lookupService_insert_ne _ _ _ _ h4,
    lookupService_insert_ne _ _ _ _ h3, lookupService_insert_ne _ _ _ _ h2,
    lookupService_insert_ne _ _ _ _ h1]

theorem lookup_addDownloader_ne (c : UserConfig) (g : Graph) (a : String)
    (h1 : a ≠ "qbittorrent") (h2 : a ≠ "sabnzbd") (h3 : a ≠ "nzbget") :
    lookupService (addDownloader c g) a = lookupService g a := by
  have hu : a ≠ ucName c := by
    rcases ucName_cases c with h | h <;> rw [h] <;> assumption
  unfold addDownloader
  split_ifs <;>
    first
      | rfl
      | rw [lookupService_insert_ne _ _ _ _ hu, lookupService_insert_ne _ _ _ _ h1]
      | rw [lookupService_insert_ne _ _ _ _ hu]
      | rw [lookupService_insert_ne _ _ _ _ h1]

theorem lookup_addGateway_ne (c : UserConfig) (g : Graph) (a : String)
    (h1 : a ≠ "traefik") (h2 : a ≠ "nginx-proxy-manager") :
    lookupService (addGateway c g) a = lookupService g a := by
  unfold addGateway
  split_ifs <;>
    first
      | rfl
      | rw [lookupService_insert_ne _ _ _ _ h1]
      | rw [lookupService_insert_ne _ _ _ _ h2]

theorem lookup_addDashboard_ne (c : UserConfig) (g : Graph) (a : String)
    (h1 : a ≠ "homepage") (h2 : a ≠ "heimdall") :
    lookupService (addDashboard c g) a = lookupService g a := by
  unfold addDashboard
  split_ifs <;>
    first
      | rfl
      | rw [lookupService_insert_ne _ _ _ _ h1]
      | rw [lookupService_insert_ne _ _ _ _ h2]

theorem lookup_addWatchtower_ne (g : Graph) (a : String) (h : a ≠ "watchtower") :
    lookupService (addWatchtower g) a = lookupService g a := by
  unfold addWatchtower
  exact lookupService_insert_ne _ _ _ _ h

theorem lookup_addExtras_ne (c : UserConfig) (g : Graph) (a : String)
    (h1 : a ≠ "bazarr") (h2 : a ≠ "overseerr") (h3 : a ≠ "tautulli")
    (h4 : a ≠ "portainer") :
    lookupService (addExtras c g) a = lookupService g a := by
  unfold addExtras
  split_ifs <;>
    first
      | rfl
      | simp only [lookupService_insert_ne _ _ _ _ h1,
          lookupService_insert_ne _ _ _ _ h2, lookupService_insert_ne _ _ _ _ h3,
          lookupService_insert_ne _ _ _ _ h4]

theorem lookup_addVpn_ne (c : UserConfig) (g : Graph) (a : String)
    (h1 : a ≠ "gluetun") (h2 : a ≠ "qbittorrent") :
    lookupService (addVpn c g) a = lookupService g a := by
  unfold addVpn
  split
  · rfl
  · dsimp only
    split
    · exact lookupService_insert_ne _ _ _ _ h1
    · rw [lookupService_insert_ne _ _ _ _ h2, lookupService_insert_ne _ _ _ _ h1]

theorem lookup_configureTranscoding_ne (c : UserConfig) (g : Graph) (a : String)
    (h : a ≠ c.media_server) :
    lookupService (configureTranscoding c g) a = lookupService g a := by
  unfold configureTranscoding
  split
  · rfl
  split
  · rfl
  rename_i s hl
  split
  · split <;> exact lookupService_insert_ne _ _ _ _ h
  split
  · exact lookupService_insert_ne _ _ _ _ h
  · rfl

/-- The gateway, dashboard, watchtower and extras stages never touch a
service that is none of their own names. -/
theorem lookup_late (c : UserConfig) (g : Graph) (a : String)
    (h1 : a ≠ "traefik") (h2 : a ≠ "nginx-proxy-manager") (h3 : a ≠ "homepage")
    (h4 : a ≠ "heimdall") (h5 : a ≠ "watchtower") (h6 : a ≠ "bazarr")
    (h7 : a ≠ "overseerr") (h8 : a ≠ "tautulli") (h9 : a ≠ "portainer") :
    lookupService (addExtras c (addWatchtower (addDashboard c (addGateway c g)))) a =
      lookupService g a := by
  rw [lookup_addExtras_ne c _ a h6 h7 h8 h9, lookup_addWatchtower_ne _ a h5,
    lookup_addDashboard_ne c _ a h3 h4, lookup_addGateway_ne c _ a h1 h2]

theorem lookup_addArrSuite_radarr (c : UserConfig) (g : Graph) :
    lookupService (addArrSuite c g) "radarr" =
      some (arrService c "radarr" "7878:7878") := by
  unfold addArrSuite
  rw [lookupService_insert_ne _ "prowlarr" _ _ (by decide),
    lookupService_insert_ne _ "readarr" _ _ (by decide),
    lookupService_insert_ne _ "lidarr" _ _ (by decide),
    lookupService_insert_ne _ "sonarr" _ _ (by decide),
    lookupService_insert_self]

theorem lookup_addArrSuite_sonarr (c : UserConfig) (g : Graph) :
    lookupService (addArrSuite c g) "sonarr" =
      some (arrService c "sonarr" "8989:8989") := by
  unfold addArrSuite
  rw [lookupService_insert_ne _ "prowlarr" _ _ (by decide),
    lookupService_insert_ne _ "readarr" _ _ (by decide),
    lookupService_insert_ne _ "lidarr" _ _ (by decide),
    lookupService_insert_self]

theorem lookup_addArrSuite_lidarr (c : UserConfig) (g : Graph) :
    lookupService (addArrSuite c g) "lidarr" =
      some (arrService c "lidarr" "8686:8686") := by
  unfold addArrSuite
  rw [lookupService_insert_ne _ "prowlarr" _ _ (by decide),
    lookupService_insert_ne _ "readarr" _ _ (by decide),
    lookupService_insert_self]

theorem lookup_addArrSuite_readarr (c : UserConfig) (g : Graph) :
    lookupService (addArrSuite c g) "readarr" =
      some (arrService c "readarr" "8787:8787") := by
  unfold addArrSuite
  rw [lookupService_insert_ne _ "prowlarr" _ _ (by decide),
    lookupService_insert_self]

theorem lookup_addDownloader_qb (c : UserConfig) (g : Graph)
    (ht : c.enable_torrents = true) :
    lookupService (addDownloader c g) "qbittorrent" = some (qbtSpec c) := by
  have hu : ("qbittorrent" : String) ≠ ucName c := by
    rcases ucName_cases c with h | h <;> rw [h] <;> decide
  unfold addDownloader
  rw [if_pos ht]
  split
  · rw [lookupService_insert_ne _ _ _ _ hu, lookupService_insert_self]
  · rw [lookupService_insert_self]

theorem lookup_addDownloader_uc (c : UserConfig) (g : Graph)
    (hu : c.enable_usenet = true) :
    lookupService (addDownloader c g) (ucName c) = some (usenetSpec c) := by
  unfold addDownloader
  rw [if_pos hu]
  exact lookupService_insert_self _ _ _

theorem addVpn_off (c : UserConfig) (g : Graph) (hv : c.enable_vpn = false) :
    addVpn c g = g := by
  unfold addVpn
  rw [if_pos (show (!c.enable_vpn) = true by simp [hv])]

theorem lookup_addVpn_qb_on (c : UserConfig) (g : Graph) (qb : ServiceSpec)
    (hv : c.enable_vpn = true) (hq : lookupService g "qbittorrent" = some qb) :
    lookupService (addVpn c g) "qbittorrent" =
      some { qb with ports := [], network_mode := some "service:gluetun",
                     depends_on := ["gluetun"] } := by
  unfold addVpn
  rw [if_neg (show ¬((!c.enable_vpn) = true) by simp [hv])]
  dsimp only
  have hq₁ : lookupService (insertService g "gluetun" (gluetunSpec c)) "qbittorrent"
      = some qb := by
    rw [lookupService_insert_ne _ _ _ _ (by decide)]
    exact hq
  rw [hq₁]
  exact lookupService_insert_self _ _ _

theorem lookup_addVpn_glue_on (c : UserConfig) (g : Graph)
    (hv : c.enable_vpn = true) :
    lookupService (addVpn c g) "gluetun" = some (gluetunSpec c) := by
  unfold addVpn
  rw [if_neg (show ¬((!c.enable_vpn) = true) by simp [hv])]
  dsimp only
  split
  · exact lookupService_insert_self _ _ _
  · rw [lookupService_insert_ne _ _ _ _ (by decide)]
    exact lookupService_insert_self _ _ _

theorem lookup_addVpn_qb_absent (c : UserConfig) (g : Graph)
    (h : lookupService g "qbittorrent" = none) :
    lookupService (addVpn c g) "qbittorrent" = none := by
  cases hv : c.enable_vpn
  · rw [addVpn_off c g hv]
    exact h
  · unfold addVpn
    rw [if_neg (show ¬((!c.enable_vpn) = true) by simp [hv])]
    dsimp only
    have h₁ : lookupService (insertService g "gluetun" (gluetunSpec c)) "qbittorrent"
        = none := by
      rw [lookupService_insert_ne _ _ _ _ (by decide)]
      exact h
    rw [h₁]
    exact h₁

theorem addVpn_idem (c : UserConfig) (g : Graph) :
    addVpn c (addVpn c g) = addVpn c g := by
  cases hv : c.enable_vpn
  · rw [addVpn_off c _ hv, addVpn_off c g hv]
  · have hvt : c.enable_vpn = true := hv
    have hglu : lookupService (addVpn c g) "gluetun" = some (gluetunSpec c) :=
      lookup_addVpn_glue_on c g hvt
    cases hq : lookupService g "qbittorrent" with
    | none =>
      have h1 : lookupService (addVpn c g) "qbittorrent" = none :=
        lookup_addVpn_qb_absent c g hq
      generalize hA : addVpn c g = A at h1 hglu
      unfold addVpn
      rw [if_neg (show ¬((!c.enable_vpn) = true) by simp [hvt])]
      dsimp only
      rw [insertService_lookup_eq _ _ _ hglu, h1]
    | some qb =>
      have h1 : lookupService (addVpn c g) "qbittorrent" =
          some { qb with ports := [], network_mode := some "service:gluetun",
                         depends_on := ["gluetun"] } :=
        lookup_addVpn_qb_on c g qb hvt hq
      generalize hA : addVpn c g = A at h1 hglu
      unfold addVpn
      rw [if_neg (show ¬((!c.enable_vpn) = true) by simp [hvt])]
      dsimp only
      rw [insertService_lookup_eq _ _ _ hglu, h1]
      exact insertService_lookup_eq _ _ _ h1

/-! ### Bounding the key set of the generated graph -/

theorem mem_keysOf_ite_insert (P : Prop) [Decidable P] (g : Graph) (k : String)
    (v : ServiceSpec) (a : String)
    (h : a ∈ keysOf (if P then insertService g k v else g)) :
    a ∈ keysOf g ∨ (P ∧ a = k) := by
  split at h
  · rename_i hP
    rcases (mem_keysOf_insertService _ _ _ _).mp h with h | h
    · exact Or.inl h
    · exact Or.inr ⟨hP, h⟩
  · exact Or.inl h

theorem mem_keysOf_addMediaServer (c : UserConfig) (img : String) (g : Graph)
    (a : String) (h : a ∈ keysOf (addMediaServer c img g)) :
    a ∈ keysOf g ∨ a = c.media_server := by
  unfold addMediaServer at h
  exact (mem_keysOf_insertService _ _ _ _).mp h

theorem mem_keysOf_addArrSuite (c : UserConfig) (g : Graph) (a : String)
    (h : a ∈ keysOf (addArrSuite c g)) :
    a ∈ keysOf g ∨ a ∈ ["radarr", "sonarr", "lidarr", "readarr", "prowlarr"] := by
  unfold addArrSuite at h
  rcases (mem_keysOf_insertService _ _ _ _).mp h with h | h
  · rcases (mem_keysOf_insertService _ _ _ _).mp h with h | h
    · rcases (mem_keysOf_insertService _ _ _ _).mp h with h | h
      · rcases (mem_keysOf_insertService _ _ _ _).mp h with h | h
        · rcases (mem_keysOf_insertService _ _ _ _).mp h with h | h
          · exact Or.inl h
          · exact Or.inr (by rw [h]; decide)
        · exact Or.inr (by rw [h]; decide)
      · exact Or.inr (by rw [h]; decide)
    · exact Or.inr (by rw [h]; decide)
  · exact Or.inr (by rw [h]; decide)

theorem mem_keysOf_addDownloader (c : UserConfig) (g : Graph) (a : String)
    (h : a ∈ keysOf (addDownloader c g)) :
    a ∈ keysOf g ∨ (c.enable_torrents = true ∧ a = "qbittorrent") ∨
      (c.enable_usenet = true ∧ (a = "sabnzbd" ∨ a = "nzbget")) := by
  unfold addDownloader at h
  rcases mem_keysOf_ite_insert _ _ _ _ _ h with h | h
  · rcases mem_keysOf_ite_insert _ _ _ _ _ h with h | ⟨ht, h⟩
    · exact Or.inl h
    · exact Or.inr (Or.inl ⟨ht, h⟩)
  · obtain ⟨hu, h⟩ := h
    rcases ucName_cases c with h2 | h2 <;> rw [h2] at h
    · exact Or.inr (Or.inr ⟨hu, Or.inl h⟩)
    · exact Or.inr (Or.inr ⟨hu, Or.inr h⟩)

theorem mem_keysOf_addGateway (c : UserConfig) (g : Graph) (a : String)
    (h : a ∈ keysOf (addGateway c g)) :
    a ∈ keysOf g ∨ a = "traefik" ∨ a = "nginx-proxy-manager" := by
  unfold addGateway at h
  split_ifs at h
  · rcases (mem_keysOf_insertService _ _ _ _).mp h with h | h
    · exact Or.inl h
    · exact Or.inr (Or.inl h)
  · rcases (mem_keysOf_insertService _ _ _ _).mp h with h | h
    · exact Or.inl h
    · exact Or.inr (Or.inr h)
  · exact Or.inl h

theorem mem_keysOf_addDashboard (c : UserConfig) (g : Graph) (a : String)
    (h : a ∈ keysOf (addDashboard c g)) :
    a ∈ keysOf g ∨ a = "homepage" ∨ a = "heimdall" := by
  unfold addDashboard at h
  split_ifs at h
  · rcases (mem_keysOf_insertService _ _ _ _).mp h with h | h
    · exact Or.inl h
    · exact Or.inr (Or.inl h)
  · rcases (mem_keysOf_insertService _ _ _ _).mp h with h | h
    · exact Or.inl h
    · exact Or.inr (Or.inr h)
  · exact Or.inl h

theorem mem_keysOf_addWatchtower (g : Graph) (a : String)
    (h : a ∈ keysOf (addWatchtower g)) :
    a ∈ keysOf g ∨ a = "watchtower" := by
  unfold addWatchtower at h
  exact (mem_keysOf_insertService _ _ _ _).mp h

theorem mem_keysOf_addExtras (c : UserConfig) (g : Graph) (a : String)
    (h : a ∈ keysOf (addExtras c g)) :
    a ∈ keysOf g ∨ a ∈ ["bazarr", "overseerr", "tautulli", "portainer"] := by
  unfold addExtras at h
  rcases mem_keysOf_ite_insert _ _ _ _ _ h with h | ⟨_, h⟩
  · rcases mem_keysOf_ite_insert _ _ _ _ _ h with h | ⟨_, h⟩
    · rcases mem_keysOf_ite_insert _ _ _ _ _ h with h | ⟨_, h⟩
      · rcases mem_keysOf_ite_insert _ _ _ _ _ h with h | ⟨_, h⟩
        · exact Or.inl h
        · exact Or.inr (by rw [h]; decide)
      · exact Or.inr (by rw [h]; decide)
    · exact Or.inr (by rw [h]; decide)
  · exact Or.inr (by rw [h]; decide)

theorem mem_keysOf_addVpn (c : UserConfig) (g : Graph) (a : String)
    (h : a ∈ keysOf (addVpn c g)) :
    a ∈ keysOf g ∨ a = "gluetun" := by
  unfold addVpn at h
  split at h
  · exact Or.inl h
  · rename_i hv
    revert h
    dsimp only
    split
    · exact fun h => (mem_keysOf_insertService _ _ _ _).mp h
    · rename_i qb hq
      intro h
      rcases (mem_keysOf_insertService _ _ _ _).mp h with h | h
      · exact (mem_keysOf_insertService _ _ _ _).mp h
      · subst h
        have hne : lookupService (insertService g "gluetun" (gluetunSpec c))
            "qbittorrent" ≠ none := by
          rw [hq]
          exact fun hc => Option.noConfusion hc
        have h₂ : "qbittorrent" ∈ keysOf (insertService g "gluetun" (gluetunSpec c)) := by
          by_contra hc
          exact hne ((lookupService_eq_none _ _).mpr hc)
        rcases (mem_keysOf_insertService _ _ _ _).mp h₂ with h₃ | h₃
        · exact Or.inl h₃
        · exact absurd h₃ (by decide)

theorem keysOf_configureTranscoding (c : UserConfig) (g : Graph) :
    keysOf (configureTranscoding c g) = keysOf g := by
  unfold configureTranscoding
  split
  · rfl
  split
  · rfl
  rename_i s hl
  have hm : c.media_server ∈ keysOf g := by
    by_contra hc
    rw [(lookupService_eq_none _ _).mpr hc] at hl
    exact Option.noConfusion hl
  split
  · split <;> exact keysOf_insertService_mem _ _ _ hm
  split
  · exact keysOf_insertService_mem _ _ _ hm
  · rfl

/-! ### Fail-fast, silent no-ops, and the wizard -/

theorem generate_unknown_media (c : UserConfig)
    (h : lookupImage IMAGES c.media_server = none) : generate c = none := by
  unfold generate
  rw [h]

theorem addGateway_unknown (c : UserConfig) (g : Graph)
    (h1 : c.gateway ≠ "traefik") (h2 : c.gateway ≠ "nginx-proxy-manager") :
    addGateway c g = g := by
  unfold addGateway
  rw [if_neg h1, if_neg h2]

theorem addDashboard_unknown (c : UserConfig) (g : Graph)
    (h1 : c.dashboard ≠ "homepage") (h2 : c.dashboard ≠ "heimdall") :
    addDashboard c g = g := by
  unfold addDashboard
  rw [if_neg h1, if_neg h2]

theorem runWizard_cancelled (steps : List (UserConfig → Option UserConfig))
    (deployOk : Bool) (h : runSteps {} steps = none) :
    runWizard steps deployOk = (1, ["msgbox:Setup cancelled."]) := by
  unfold runWizard
  rw [h]

theorem msStr_notMem (ms : MediaServer) :
    ms.str ∉ (["radarr", "sonarr", "lidarr", "readarr", "prowlarr", "qbittorrent",
      "sabnzbd", "nzbget", "gluetun", "traefik", "nginx-proxy-manager", "homepage",
      "heimdall", "watchtower", "bazarr", "overseerr", "tautulli", "portainer"] :
      List String) := by
  cases ms <;> decide

theorem msStr_ne (ms : MediaServer) (a : String)
    (ha : a ∈ (["radarr", "sonarr", "lidarr", "readarr", "prowlarr", "qbittorrent",
      "sabnzbd", "nzbget", "gluetun", "traefik", "nginx-proxy-manager", "homepage",
      "heimdall", "watchtower", "bazarr", "overseerr", "tautulli", "portainer"] :
      List String)) : a ≠ ms.str := by
  intro h
  rw [h] at ha
  exact msStr_notMem ms ha

theorem lookup_addArrSuite_any (c : UserConfig) (g : Graph) (name : String)
    (h : name ∈ (["radarr", "sonarr", "lidarr", "readarr"] : List String)) :
    lookupService (addArrSuite c g) name = some (arrService c name (arrPortOf name)) := by
  fin_cases h
  · exact lookup_addArrSuite_radarr c g
  · exact lookup_addArrSuite_sonarr c g
  · exact lookup_addArrSuite_lidarr c g
  · exact lookup_addArrSuite_readarr c g

/-! ## The claims -/

/-- C1 counterexample: for the valid configuration with both transports
enabled and downloader sabnzbd (selectable in the wizard whenever usenet is
on), the generated graph declares host port (8080, tcp) twice: once on
qbittorrent and once on sabnzbd.  This refutes the claim that no two services
share a (host port, protocol) pair for every configuration with both
transports enabled. -/
theorem C1_port_collision_counterexample :
    ¬ (allPortKeys ((generate cfgBothTransports.toUserConfig).getD [])).Nodup ∧
    "8080:8080" ∈ ((lookupService ((generate cfgBothTransports.toUserConfig).getD [])
      "qbittorrent").getD {}).ports ∧
    "8080:8080" ∈ ((lookupService ((generate cfgBothTransports.toUserConfig).getD [])
      "sabnzbd").getD {}).ports := by
  refine ⟨?_, ?_, ?_⟩ <;> decide

/-- C1 (amended): the Service Graph produced from a valid Configuration Model
contains no two services with the same (host port, protocol) pair, except
when usenet is enabled with the usenet client resolving to sabnzbd (any
downloader other than nzbget) while torrents or the VPN tunnel are also
enabled — in that case sabnzbd and qbittorrent/gluetun both claim host port
8080.  In particular, with both transports enabled the invariant holds only
for downloader nzbget. -/
theorem C1_no_port_collisions_amended (v : ValidConfig) (g : Graph)
    (hg : generate v.toUserConfig = some g)
    (h : ¬(v.enable_usenet = true ∧ v.downloader ≠ DownloaderChoice.nzbget ∧
      (v.enable_torrents = true ∨ v.enable_vpn = true))) :
    (allPortKeys g).Nodup := by
  rw [← sigPortKeys_sigOf g, sigOf_generate v g hg]
  exact portsSig_nodup _ _ _ _ _ _ _ _ _ _ _ h

/-- C1 witness: both transports enabled with downloader nzbget satisfies the
amended hypothesis, and its graph has pairwise-distinct host ports. -/
theorem C1_no_port_collisions_amended_witness :
    (allPortKeys ((generate cfgNzbBoth.toUserConfig).getD [])).Nodup :=
  C1_no_port_collisions_amended cfgNzbBoth
    ((generate cfgNzbBoth.toUserConfig).getD []) rfl (by decide)

/-- C2 counterexample: an unrecognized gateway value ("caddy") does not fail:
`generate` succeeds, silently produces a non-empty graph, and simply omits
any gateway service.  This refutes the claim that a value outside the
Catalog's known set always fails with a Configuration error before any
ServiceSpec is created. -/
theorem C2_unknown_enum_counterexample :
    (generate cfgUnknownGateway).isSome = true ∧
    "traefik" ∉ keysOf ((generate cfgUnknownGateway).getD []) ∧
    "nginx-proxy-manager" ∉ keysOf ((generate cfgUnknownGateway).getD []) ∧
    keysOf ((generate cfgUnknownGateway).getD []) ≠ [] := by
  refine ⟨?_, ?_, ?_, ?_⟩ <;> decide

/-- C2 (amended): only the media-server field fails fast — an unrecognized
media server aborts `generate` (the `IMAGES[server]` KeyError) before any
ServiceSpec is created; an unrecognized gateway or dashboard value is a
silent no-op (its stage adds nothing and raises nothing), and the run
continues with a graph missing that service. -/
theorem C2_enum_handling_amended :
    (∀ c : UserConfig, lookupImage IMAGES c.media_server = none → generate c = none) ∧
    (∀ (c : UserConfig) (g : Graph), c.gateway ≠ "traefik" →
      c.gateway ≠ "nginx-proxy-manager" → addGateway c g = g) ∧
    (∀ (c : UserConfig) (g : Graph), c.dashboard ≠ "homepage" →
      c.dashboard ≠ "heimdall" → addDashboard c g = g) :=
  ⟨generate_unknown_media, addGateway_unknown, addDashboard_unknown⟩

/-- C2 witness: an unknown media server ("kodi") makes `generate` fail with
no graph at all. -/
theorem C2_enum_handling_amended_witness :
    generate ({ media_server := "kodi" } : UserConfig) = none :=
  C2_enum_handling_amended.1 { media_server := "kodi" } (by decide)

/-- C3 counterexample: with media server plex the generated spec carries
`network_mode = "host"`, and "host" is not a key of the graph, so not every
networkMode value names a service of the graph. -/
theorem C3_network_mode_counterexample :
    ((lookupService ((generate cfgPlexValid.toUserConfig).getD []) "plex").getD
      {}).network_mode = some "host" ∧
    "host" ∉ keysOf ((generate cfgPlexValid.toUserConfig).getD []) := by
  refine ⟨?_, ?_⟩ <;> decide

/-- C3 (amended): in every Service Graph produced from a valid Configuration
Model, every dependsOn entry names an existing service, and every networkMode
value is either absent, the Docker host-network literal "host", or a
`service:` reference to a service that exists as a key in the same graph. -/
theorem C3_references_resolve_amended (v : ValidConfig) (g : Graph)
    (hg : generate v.toUserConfig = some g) :
    ∀ e ∈ g, (∀ d ∈ e.2.depends_on, d ∈ keysOf g) ∧
      (e.2.network_mode = none ∨ e.2.network_mode = some "host" ∨
        ∃ t ∈ keysOf g, e.2.network_mode = some ("service:" ++ t)) := by
  intro e he
  obtain ⟨h1, h2⟩ := refsOk_generate _ _ hg e he
  refine ⟨h1, ?_⟩
  rcases h2 with h | h | ⟨h, hk⟩
  · exact Or.inl h
  · exact Or.inr (Or.inl h)
  · refine Or.inr (Or.inr ⟨"gluetun", hk, ?_⟩)
    rw [h]
    exact congrArg some (by decide)

/-- C3 witness: for the VPN configuration the qbittorrent entry is in the
graph, its dependsOn entries resolve and its networkMode is a `service:`
reference to a present service. -/
theorem C3_references_resolve_amended_witness :
    (∀ d ∈ qbVpn.depends_on, d ∈ keysOf graphVpn) ∧
      (qbVpn.network_mode = none ∨ qbVpn.network_mode = some "host" ∨
        ∃ t ∈ keysOf graphVpn, qbVpn.network_mode = some ("service:" ++ t)) :=
  C3_references_resolve_amended cfgVpnValid graphVpn rfl
    ("qbittorrent", qbVpn) (by decide)

/-- C4: in every Service Graph produced from a valid Configuration Model, a
service whose networkMode is set declares no ports of its own (empty/absent
ports list). -/
theorem C4_ports_network_mode_exclusive (v : ValidConfig) (g : Graph)
    (hg : generate v.toUserConfig = some g) :
    ∀ e ∈ g, e.2.network_mode ≠ none → e.2.ports = [] :=
  portsNetOk_generate _ _ hg

/-- C4 witness: the VPN-mutated qbittorrent entry has a networkMode and an
empty ports list. -/
theorem C4_ports_network_mode_exclusive_witness : qbVpn.ports = [] :=
  C4_ports_network_mode_exclusive cfgVpnValid graphVpn rfl
    ("qbittorrent", qbVpn) (by decide) (by decide)

/-- C5: for every valid configuration with torrents and the VPN tunnel
enabled, the graph contains gluetun carrying the torrent client's former host
ports 8080:8080, 6881:6881 and 6881:6881/udp, while qbittorrent has an empty
ports list, networkMode "service:gluetun" (a reference to the tunnel
service), and a dependsOn entry naming gluetun. -/
theorem C5_vpn_overlay_shape (v : ValidConfig) (g : Graph)
    (hg : generate v.toUserConfig = some g)
    (ht : v.enable_torrents = true) (hv : v.enable_vpn = true) :
    lookupService g "gluetun" = some (gluetunSpec v.toUserConfig) ∧
    (gluetunSpec v.toUserConfig).ports = ["8080:8080", "6881:6881", "6881:6881/udp"] ∧
    ∃ qb, lookupService g "qbittorrent" = some qb ∧ qb.ports = [] ∧
      qb.network_mode = some "service:gluetun" ∧ "gluetun" ∈ qb.depends_on := by
  unfold generate at hg
  rw [lookupImage_valid v] at hg
  injection hg with hg
  subst hg
  have htc : v.toUserConfig.enable_torrents = true := ht
  have hvc : v.toUserConfig.enable_vpn = true := hv
  refine ⟨?_, rfl, ?_⟩
  · rw [lookup_configureTranscoding_ne _ _ _ (msStr_ne v.media_server "gluetun" (by decide))]
    exact lookup_addVpn_glue_on _ _ hvc
  · refine ⟨({ qbtSpec v.toUserConfig with
                ports := [],
                network_mode := some "service:gluetun",
                depends_on := ["gluetun"] } : ServiceSpec),
      ?_, rfl, rfl, List.mem_singleton.mpr rfl⟩
    rw [lookup_configureTranscoding_ne _ _ _
      (msStr_ne v.media_server "qbittorrent" (by decide))]
    refine lookup_addVpn_qb_on _ _ _ hvc ?_
    rw [lookup_late _ _ _ (by decide) (by decide) (by decide) (by decide) (by decide)
      (by decide) (by decide) (by decide) (by decide)]
    exact lookup_addDownloader_qb _ _ htc

/-- C5 witness: the VPN configuration instantiates the overlay shape. -/
theorem C5_vpn_overlay_shape_witness :
    lookupService graphVpn "gluetun" = some (gluetunSpec cfgVpnValid.toUserConfig) ∧
    (gluetunSpec cfgVpnValid.toUserConfig).ports =
      ["8080:8080", "6881:6881", "6881:6881/udp"] ∧
    ∃ qb, lookupService graphVpn "qbittorrent" = some qb ∧ qb.ports = [] ∧
      qb.network_mode = some "service:gluetun" ∧ "gluetun" ∈ qb.depends_on :=
  C5_vpn_overlay_shape cfgVpnValid graphVpn rfl rfl rfl

/-- C6: the tunneling overlay (`_add_vpn`) is idempotent on the whole graph —
applying it twice yields the same graph, hence the same torrent-client
ServiceSpec, as applying it once — and it never creates the torrent client:
if qbittorrent is absent the overlay leaves it absent (the mutation only
fires when the service exists). -/
theorem C6_vpn_overlay_idempotent :
    (∀ (c : UserConfig) (g : Graph), addVpn c (addVpn c g) = addVpn c g) ∧
    (∀ (c : UserConfig) (g : Graph), lookupService g "qbittorrent" = none →
      lookupService (addVpn c g) "qbittorrent" = none) :=
  ⟨addVpn_idem, fun c g h => lookup_addVpn_qb_absent c g h⟩

/-- C6 witness: idempotence on the concrete VPN-enabled graph, and
no-creation on the empty graph. -/
theorem C6_vpn_overlay_idempotent_witness :
    addVpn cfgVpnValid.toUserConfig (addVpn cfgVpnValid.toUserConfig graphVpn) =
      addVpn cfgVpnValid.toUserConfig graphVpn ∧
    lookupService (addVpn cfgVpnValid.toUserConfig []) "qbittorrent" = none :=
  ⟨C6_vpn_overlay_idempotent.1 cfgVpnValid.toUserConfig graphVpn,
   C6_vpn_overlay_idempotent.2 cfgVpnValid.toUserConfig [] rfl⟩

/-- C7: disabling a transport removes that transport's download client from
the graph (qbittorrent for torrents; sabnzbd and nzbget for usenet) and its
downloads-volume contribution from each content manager (radarr, sonarr,
lidarr, readarr). -/
theorem C7_transport_omission (v : ValidConfig) (g : Graph)
    (hg : generate v.toUserConfig = some g) :
    (v.enable_torrents = false →
      "qbittorrent" ∉ keysOf g ∧
      ∀ name ∈ (["radarr", "sonarr", "lidarr", "readarr"] : List String),
        ∀ s, lookupService g name = some s →
          "/opt/astro/torrents:/downloads/torrents" ∉ s.volumes) ∧
    (v.enable_usenet = false →
      ("sabnzbd" ∉ keysOf g ∧ "nzbget" ∉ keysOf g) ∧
      ∀ name ∈ (["radarr", "sonarr", "lidarr", "readarr"] : List String),
        ∀ s, lookupService g name = some s →
          "/opt/astro/usenet:/downloads/usenet" ∉ s.volumes) := by
  unfold generate at hg
  rw [lookupImage_valid v] at hg
  injection hg with hg
  subst hg
  constructor
  · intro htor
    have htorc : v.toUserConfig.enable_torrents = false := htor
    constructor
    · intro hq
      rw [keysOf_configureTranscoding] at hq
      rcases mem_keysOf_addVpn _ _ _ hq with hq | hq
      · rcases mem_keysOf_addExtras _ _ _ hq with hq | hq
        · rcases mem_keysOf_addWatchtower _ _ hq with hq | hq
          · rcases mem_keysOf_addDashboard _ _ _ hq with hq | hq
            · rcases mem_keysOf_addGateway _ _ _ hq with hq | hq
              · rcases mem_keysOf_addDownloader _ _ _ hq with hq | hq | hq
                · rcases mem_keysOf_addArrSuite _ _ _ hq with hq | hq
                  · rcases mem_keysOf_addMediaServer _ _ _ _ hq with hq | hq
                    · exact absurd hq (List.not_mem_nil _)
                    · exact msStr_ne v.media_server "qbittorrent" (by decide) hq
                  · exact absurd hq (by decide)
                · obtain ⟨ht₂, _⟩ := hq
                  rw [htorc] at ht₂
                  exact Bool.noConfusion ht₂
                · obtain ⟨_, hq⟩ := hq
                  rcases hq with hq | hq <;> exact absurd hq (by decide)
              · rcases hq with hq | hq <;> exact absurd hq (by decide)
            · rcases hq with hq | hq <;> exact absurd hq (by decide)
          · exact absurd hq (by decide)
        · exact absurd hq (by decide)
      · exact absurd hq (by decide)
    · intro name hname s hs
      fin_cases hname <;>
        (rw [lookup_configureTranscoding_ne _ _ _ (msStr_ne v.media_server _ (by decide)),
          lookup_addVpn_ne _ _ _ (by decide) (by decide),
          lookup_late _ _ _ (by decide) (by decide) (by decide) (by decide) (by decide)
            (by decide) (by decide) (by decide) (by decide),
          lookup_addDownloader_ne _ _ _ (by decide) (by decide) (by decide),
          lookup_addArrSuite_any _ _ _ (by decide)] at hs
         injection hs with hs
         subst hs
         rw [show ∀ n p, (arrService v.toUserConfig n p).volumes =
           arrVolumes v.toUserConfig n from fun n p => rfl]
         unfold arrVolumes
         rw [if_pos (by decide), htorc]
         cases huse₂ : v.toUserConfig.enable_usenet <;> decide)
  · intro husen
    have husec : v.toUserConfig.enable_usenet = false := husen
    constructor
    · constructor
      · intro hq
        rw [keysOf_configureTranscoding] at hq
        rcases mem_keysOf_addVpn _ _ _ hq with hq | hq
        · rcases mem_keysOf_addExtras _ _ _ hq with hq | hq
          · rcases mem_keysOf_addWatchtower _ _ hq with hq | hq
            · rcases mem_keysOf_addDashboard _ _ _ hq with hq | hq
              · rcases mem_keysOf_addGateway _ _ _ hq with hq | hq
                · rcases mem_keysOf_addDownloader _ _ _ hq with hq | hq | hq
                  · rcases mem_keysOf_addArrSuite _ _ _ hq with hq | hq
                    · rcases mem_keysOf_addMediaServer _ _ _ _ hq with hq | hq
                      · exact absurd hq (List.not_mem_nil _)
                      · exact msStr_ne v.media_server "sabnzbd" (by decide) hq
                    · exact absurd hq (by decide)
                  · obtain ⟨_, hq⟩ := hq
                    exact absurd hq (by decide)
                  · obtain ⟨hu₂, _⟩ := hq
                    rw [husec] at hu₂
                    exact Bool.noConfusion hu₂
                · rcases hq with hq | hq <;> exact absurd hq (by decide)
              · rcases hq with hq | hq <;> exact absurd hq (by decide)
            · exact absurd hq (by decide)
          · exact absurd hq (by decide)
        · exact absurd hq (by decide)
      · intro hq
        rw [keysOf_configureTranscoding] at hq
        rcases mem_keysOf_addVpn _ _ _ hq with hq | hq
        · rcases mem_keysOf_addExtras _ _ _ hq with hq | hq
          · rcases mem_keysOf_addWatchtower _ _ hq with hq | hq
            · rcases mem_keysOf_addDashboard _ _ _ hq with hq | hq
              · rcases mem_keysOf_addGateway _ _ _ hq with hq | hq
                · rcases mem_keysOf_addDownloader _ _ _ hq with hq | hq | hq
                  · rcases mem_keysOf_addArrSuite _ _ _ hq with hq | hq
                    · rcases mem_keysOf_addMediaServer _ _ _ _ hq with hq | hq
                      · exact absurd hq (List.not_mem_nil _)
                      · exact msStr_ne v.media_server "nzbget" (by decide) hq
                    · exact absurd hq (by decide)
                  · obtain ⟨_, hq⟩ := hq
                    exact absurd hq (by decide)
                  · obtain ⟨hu₂, _⟩ := hq
                    rw [husec] at hu₂
                    exact Bool.noConfusion hu₂
                · rcases hq with hq | hq <;> exact absurd hq (by decide)
              · rcases hq with hq | hq <;> exact absurd hq (by decide)
            · exact absurd hq (by decide)
          · exact absurd hq (by decide)
        · exact absurd hq (by decide)
    · intro name hname s hs
      fin_cases hname <;>
        (rw [lookup_configureTranscoding_ne _ _ _ (msStr_ne v.media_server _ (by decide)),
          lookup_addVpn_ne _ _ _ (by decide) (by decide),
          lookup_late _ _ _ (by decide) (by decide) (by decide) (by decide) (by decide)
            (by decide) (by decide) (by decide) (by decide),
          lookup_addDownloader_ne _ _ _ (by decide) (by decide) (by decide),
          lookup_addArrSuite_any _ _ _ (by decide)] at hs
         injection hs with hs
         subst hs
         rw [show ∀ n p, (arrService v.toUserConfig n p).volumes =
           arrVolumes v.toUserConfig n from fun n p => rfl]
         unfold arrVolumes
         rw [if_pos (by decide), husec]
         cases htor₂ : v.toUserConfig.enable_torrents <;> decide)

/-- C7 witness: with both transports disabled, neither download client is in
the graph, and radarr has no torrent downloads volume. -/
theorem C7_transport_omission_witness :
    "qbittorrent" ∉ keysOf graphNoTransports ∧
    "sabnzbd" ∉ keysOf graphNoTransports := by
  refine ⟨?_, ?_⟩
  · exact ((C7_transport_omission cfgNoTransports graphNoTransports rfl).1 rfl).1
  · exact (((C7_transport_omission cfgNoTransports graphNoTransports rfl).2 rfl).1).1

/-- C8 counterexample: the numeric result of a cancelled run (abort at the
first step) is 1, the same exit code as a run whose deployment fails — the
cancelled outcome is not distinct from a processing failure at the level of
the run's returned result. -/
theorem C8_cancelled_exit_code_counterexample :
    (runWizard [fun _ => none] true).1 = 1 ∧
    (runWizard (List.replicate 11 (fun c => some c)) false).1 = 1 := by
  refine ⟨rfl, ?_⟩
  decide

/-- C8 (amended): if any wizard step aborts, the run terminates with exit
code 1 and only the "Setup cancelled." dialog: no directories are created, no
files are written, and the rules engine is never invoked.  The cancelled
outcome is distinguished from a processing failure only by the displayed
message — the numeric exit code (1) is shared with failure outcomes. -/
theorem C8_cancelled_trace_amended (steps : List (UserConfig → Option UserConfig))
    (deployOk : Bool) (h : runSteps {} steps = none) :
    runWizard steps deployOk = (1, ["msgbox:Setup cancelled."]) :=
  runWizard_cancelled steps deployOk h

/-- C8 witness: a run whose first step aborts produces exactly the cancelled
trace. -/
theorem C8_cancelled_trace_amended_witness :
    runWizard [fun _ => none] true = (1, ["msgbox:Setup cancelled."]) :=
  C8_cancelled_trace_amended [fun _ => none] true rfl

/-- C9: with usenet enabled and a downloader outside the usenet family, the
engine defaults the usenet client to sabnzbd with host port mapping
8080:8080; and with torrents enabled the torrent client is qbittorrent
(image and container name) regardless of the downloader field. -/
theorem C9_downloader_defaults (v : ValidConfig) (g : Graph)
    (hg : generate v.toUserConfig = some g) :
    (v.enable_usenet = true → v.downloader ≠ .sabnzbd → v.downloader ≠ .nzbget →
      lookupService g "sabnzbd" = some (usenetSpec v.toUserConfig) ∧
      (usenetSpec v.toUserConfig).ports = ["8080:8080"]) ∧
    (v.enable_torrents = true →
      ∃ q, lookupService g "qbittorrent" = some q ∧
        q.image = "lscr.io/linuxserver/qbittorrent:latest" ∧
        q.container_name = "qbittorrent") := by
  unfold generate at hg
  rw [lookupImage_valid v] at hg
  injection hg with hg
  subst hg
  refine ⟨?_, ?_⟩
  · intro hu hd₁ hd₂
    have husec : v.toUserConfig.enable_usenet = true := hu
    have hdq : v.downloader = .qbittorrent := by
      cases hv₃ : v.downloader
      · rfl
      · exact absurd hv₃ hd₁
      · exact absurd hv₃ hd₂
    have hcd : v.toUserConfig.downloader = "qbittorrent" := by
      show v.downloader.str = "qbittorrent"
      rw [hdq]
      decide
    have huc : ucName v.toUserConfig = "sabnzbd" := by
      unfold ucName
      rw [hcd]
      decide
    refine ⟨?_, ?_⟩
    · rw [lookup_configureTranscoding_ne _ _ _ (msStr_ne v.media_server "sabnzbd" (by decide)),
        lookup_addVpn_ne _ _ _ (by decide) (by decide),
        lookup_late _ _ _ (by decide) (by decide) (by decide) (by decide) (by decide)
          (by decide) (by decide) (by decide) (by decide), ← huc]
      exact lookup_addDownloader_uc _ _ husec
    · show ucPorts v.toUserConfig = ["8080:8080"]
      unfold ucPorts
      rw [huc]
      decide
  · intro htor
    have htc : v.toUserConfig.enable_torrents = true := htor
    cases hvv : v.enable_vpn with
    | false =>
      have hvc : v.toUserConfig.enable_vpn = false := hvv
      refine ⟨qbtSpec v.toUserConfig, ?_, rfl, rfl⟩
      rw [lookup_configureTranscoding_ne _ _ _
        (msStr_ne v.media_server "qbittorrent" (by decide)),
        addVpn_off _ _ hvc,
        lookup_late _ _ _ (by decide) (by decide) (by decide) (by decide) (by decide)
          (by decide) (by decide) (by decide) (by decide)]
      exact lookup_addDownloader_qb _ _ htc
    | true =>
      have hvc : v.toUserConfig.enable_vpn = true := hvv
      refine ⟨({ qbtSpec v.toUserConfig with
                  ports := [],
                  network_mode := some "service:gluetun",
                  depends_on := ["gluetun"] } : ServiceSpec),
        ?_, rfl, rfl⟩
      rw [lookup_configureTranscoding_ne _ _ _
        (msStr_ne v.media_server "qbittorrent" (by decide))]
      refine lookup_addVpn_qb_on _ _ _ hvc ?_
      rw [lookup_late _ _ _ (by decide) (by decide) (by decide) (by decide) (by decide)
        (by decide) (by decide) (by decide) (by decide)]
      exact lookup_addDownloader_qb _ _ htc

/-- C9 witness: usenet on with downloader qbittorrent defaults the usenet
client to sabnzbd on 8080:8080. -/
theorem C9_downloader_defaults_witness :
    lookupService graphUsenetDefault "sabnzbd" =
      some (usenetSpec cfgUsenetDefault.toUserConfig) ∧
    (usenetSpec cfgUsenetDefault.toUserConfig).ports = ["8080:8080"] :=
  (C9_downloader_defaults cfgUsenetDefault graphUsenetDefault rfl).1 rfl
    (by decide) (by decide)

/-- C10: every ServiceSpec in every graph produced from a valid Configuration
Model has `container_name` equal to its key in the services mapping and
restart policy "unless-stopped". -/
theorem C10_container_name_restart (v : ValidConfig) (g : Graph)
    (hg : generate v.toUserConfig = some g) :
    ∀ e ∈ g, e.2.container_name = e.1 ∧ e.2.restart = "unless-stopped" :=
  nameRestartOk_generate _ _ hg

/-- C10 witness: the watchtower entry of the default graph names itself and
restarts unless-stopped. -/
theorem C10_container_name_restart_witness :
    watchtowerEntry.container_name = "watchtower" ∧
    watchtowerEntry.restart = "unless-stopped" :=
  C10_container_name_restart cfgDefault graphDefault rfl
    ("watchtower", watchtowerEntry) (by decide)

end Astro
